import Mathlib

/-!
# Mission_Clocks: trigger store and alarm scheduling

A shallow embedding of `src/Index.js` (the `Mission_Clocks` Durable Object) and
theorems about its trigger lifecycle.

Modelling conventions

* JavaScript values are the JSON-like trees of `JsVal`; numbers are integers
  (epoch milliseconds), arrays are not modelled.
* `Date` parsing of strings is implementation-defined in JavaScript, so the
  string parser is a parameter `dateParse : String → Option Int` of every
  definition that reads a time; `none` stands for `NaN` (an invalid date).
* `Date.now()` readings are explicit arguments, one per call site.
* `Array.prototype.sort` is a stable sort; it is embedded as the stable
  insertion sort `List.insertionSort` over the comparator of the source, with
  a `NaN` comparator result treated as `+0` as ECMAScript prescribes. With an
  unparseable time the order is implementation-defined; the theorems read the
  order only where every time parses, or on concrete lists in which the
  comparator reports no adjacent pair out of order.
* The outcome of every outbound `fetch` is supplied by an oracle.
-/

namespace MissionClocks

/-! ## JavaScript values -/

mutual
/-- A JavaScript value as it arrives in a JSON body or comes back from storage. -/
inductive JsVal
  | undefined
  | null
  | bool (b : Bool)
  | num (n : Int)
  | str (s : String)
  | obj (fields : JsFields)
/-- The properties of a plain object, in insertion order. -/
inductive JsFields
  | nil
  | cons (key : String) (value : JsVal) (rest : JsFields)
end

deriving instance DecidableEq for JsVal, JsFields

/-- ToBoolean: the test applied by `if (x)`, `!x` and `x || y`. -/
def truthy : JsVal → Bool
  | .undefined => false
  | .null => false
  | .bool b => b
  | .num n => n != 0
  | .str s => s != ""
  | .obj _ => true

/-- Largest magnitude of a valid time value (TimeClip), in milliseconds. -/
def maxTimeValue : Int := 8640000000000000

/-- The value of `new Date(v).getTime()`; `none` is `NaN`. -/
def getTime (dateParse : String → Option Int) : JsVal → Option Int
  | .undefined => none
  | .null => some 0
  | .bool b => some (if b then 1 else 0)
  | .num n => if n.natAbs ≤ maxTimeValue.natAbs then some n else none
  | .str s => dateParse s
  | .obj _ => dateParse "[object Object]"

/-! ## Data model -/

/-- A stored trigger `{ type, time, meta }`; an absent `meta` reads as `undefined`. -/
structure Trigger where
  type : String
  time : JsVal
  meta : JsVal
  deriving DecidableEq

/-- One entry of `slaDeadlines`. -/
structure SlaDeadline where
  time : JsVal
  meta : JsVal
  deriving DecidableEq

/-- One entry of `documentExpirations`. -/
structure DocumentExpiration where
  documentId : JsVal
  expiry : JsVal
  deriving DecidableEq

/-- The parsed JSON body of `POST /init`, after destructuring with its defaults. -/
structure InitBody where
  missionId : JsVal
  departureTime : JsVal
  t72LockTime : JsVal
  t48LockTime : JsVal
  slaDeadlines : List SlaDeadline
  documentExpirations : List DocumentExpiration
  deriving DecidableEq

/-- The parsed JSON body of `POST /register-document`. -/
structure RegisterBody where
  documentId : JsVal
  expiry : JsVal
  deriving DecidableEq

/-- The body of a `Response`: plain text, or `JSON.stringify({ status })`. -/
inductive ResponseBody
  | text (s : String)
  | jsonStatus (status : String)
  deriving DecidableEq

/-- A `Response` returned to the caller. -/
structure Response where
  status : Nat
  body : ResponseBody
  deriving DecidableEq

/-- The durable key-value storage of one instance. -/
structure Storage where
  missionId : Option JsVal
  triggers : Option (List Trigger)
  others : List (String × JsVal)
  deriving DecidableEq

/-- Storage with no key at all. -/
def Storage.empty : Storage := { missionId := none, triggers := none, others := [] }

/-- One `Mission_Clocks` instance: its storage, the time last passed to
`setAlarm` (`armed`), and the in-memory `initialized` flag. The runtime
clearing a wakeup once it has fired is not part of the class and is not
modelled. -/
structure Mission_Clocks where
  storage : Storage
  armed : Option Int
  initialized : Bool
  deriving DecidableEq

/-- A freshly constructed instance over empty storage, with no wakeup armed. -/
def Mission_Clocks.fresh : Mission_Clocks :=
  { storage := Storage.empty, armed := none, initialized := false }

/-- The value of `(await this.state.storage.get("triggers")) || []`. -/
def storedTriggers (self : Mission_Clocks) : List Trigger :=
  match self.storage.triggers with
  | some triggers => triggers
  | none => []

/-- The value of `await this.state.storage.get("missionId")`. -/
def storedMissionId (self : Mission_Clocks) : JsVal :=
  match self.storage.missionId with
  | some missionId => missionId
  | none => .undefined

/-- The call `this.state.storage.put("triggers", triggers)`. -/
def putTriggers (self : Mission_Clocks) (triggers : List Trigger) : Mission_Clocks :=
  { self with storage := { self.storage with triggers := some triggers } }

/-- The call `this.state.storage.put("missionId", missionId)`. -/
def putMissionId (self : Mission_Clocks) (missionId : JsVal) : Mission_Clocks :=
  { self with storage := { self.storage with missionId := some missionId } }

/-- The call `this.state.storage.setAlarm(time)`. -/
def setAlarm (self : Mission_Clocks) (time : Int) : Mission_Clocks :=
  { self with armed := some time }

/-! ## Sorting -/

/-- The comparator `(a, b) => new Date(a.time) - new Date(b.time)`; `none` is `NaN`. -/
def compareFn (dateParse : String → Option Int) (a b : Trigger) : Option Int :=
  match getTime dateParse a.time, getTime dateParse b.time with
  | some x, some y => some (x - y)
  | _, _ => none

/-- Whether the sort may leave `a` before `b`: the comparator result is not
positive, a `NaN` result counting as `+0`. -/
def sortLe (dateParse : String → Option Int) (a b : Trigger) : Bool :=
  match compareFn dateParse a b with
  | some d => decide (d ≤ 0)
  | none => true

/-- The call `triggers.sort((a, b) => new Date(a.time) - new Date(b.time))`.
When every time parses the comparator is consistent and the result is the
stable sort, the same for every engine. When a time does not parse the
comparator is inconsistent, the order is implementation-defined and an engine
may order the list differently from this definition. -/
def sortTriggers (dateParse : String → Option Int) (triggers : List Trigger) : List Trigger :=
  List.insertionSort (fun a b => sortLe dateParse a b = true) triggers

/-! ## Scheduling the next alarm -/

/-- The method `scheduleNextAlarm`; `now₁` is the clock read in the test,
`now₂` the clock read in the `else` branch. -/
def scheduleNextAlarm (dateParse : String → Option Int) (self : Mission_Clocks)
    (now₁ now₂ : Int) : Mission_Clocks :=
  match storedTriggers self with
  | [] => self
  | nextTrigger :: _ =>
    match getTime dateParse nextTrigger.time with
    | some nextTime =>
      if nextTime > now₁ then setAlarm self nextTime else setAlarm self (now₂ + 1000)
    | none => setAlarm self (now₂ + 1000)

/-! ## Initialize, register, cancel -/

/-- The trigger list built by `initialize` before sorting (lines 44 to 64). -/
def buildTriggers (body : InitBody) : List Trigger :=
  (if truthy body.t72LockTime then
      [{ type := "T72_LOCK", time := body.t72LockTime, meta := .undefined }] else [])
  ++ (if truthy body.t48LockTime then
      [{ type := "T48_LOCK", time := body.t48LockTime, meta := .undefined }] else [])
  ++ body.slaDeadlines.map
      (fun sla => { type := "SLA_BREACH", time := sla.time, meta := sla.meta })
  ++ body.documentExpirations.map
      (fun doc => { type := "DOCUMENT_EXPIRED", time := doc.expiry,
                    meta := .obj (.cons "documentId" doc.documentId .nil) })

/-- The method `initialize` (a reserved word here, hence `init`, after its
route `/init`), applied to the parsed request body. -/
def init (dateParse : String → Option Int) (self : Mission_Clocks) (body : InitBody)
    (now₁ now₂ : Int) : Mission_Clocks × Response :=
  if !truthy body.missionId then
    (self, { status := 400, body := .text "missionId required" })
  else
    let triggers := sortTriggers dateParse (buildTriggers body)
    let self := putMissionId self body.missionId
    let self := putTriggers self triggers
    let self := scheduleNextAlarm dateParse self now₁ now₂
    ({ self with initialized := true }, { status := 200, body := .jsonStatus "initialized" })

/-- The method `registerDocument`, applied to the parsed request body. -/
def registerDocument (dateParse : String → Option Int) (self : Mission_Clocks)
    (body : RegisterBody) (now₁ now₂ : Int) : Mission_Clocks × Response :=
  let triggers := storedTriggers self ++
    [{ type := "DOCUMENT_EXPIRED", time := body.expiry,
       meta := .obj (.cons "documentId" body.documentId .nil) }]
  let triggers := sortTriggers dateParse triggers
  let self := putTriggers self triggers
  let self := scheduleNextAlarm dateParse self now₁ now₂
  (self, { status := 200, body := .jsonStatus "registered" })

/-- The method `cancelAll`: `delete("triggers")` then `deleteAll()`. The
method makes no alarm call; whether `deleteAll()` also clears an armed wakeup
depends on the runtime, so `armed` is carried over here and no theorem reads
it after `cancelAll` unless it was `none` before. -/
def cancelAll (self : Mission_Clocks) : Mission_Clocks × Response :=
  let self := { self with storage := { self.storage with triggers := none } }
  let self := { self with storage := Storage.empty }
  (self, { status := 200, body := .jsonStatus "cancelled" })

/-! ## Emitting a trigger -/

/-- The two downstream endpoints, `env["mission-control-api"]` (primary) and
`env["mission-comms"]` (secondary). -/
inductive Sink
  | missionControlApi
  | missionComms
  deriving DecidableEq

/-- How one `await fetch(...)` ends: the promise resolves with a response of
some HTTP status, or it rejects and the `await` throws. -/
inductive FetchOutcome
  | resolved (httpStatus : Nat)
  | rejected (err : String)
  deriving DecidableEq

/-- The object handed to `JSON.stringify` as the request body. -/
inductive Payload
  | event (missionId : JsVal) (eventType : String) (meta : JsVal)
  | notification (missionId : JsVal) (notificationType : String)
  deriving DecidableEq

/-- One attempted `fetch` call. -/
structure FetchCall where
  sink : Sink
  body : Payload
  deriving DecidableEq

/-- What one run of `emitTrigger` did: the fetches it attempted in order, the
lines it wrote with `console.error`, and the exception it let escape, if any. -/
structure EmitResult where
  calls : List FetchCall
  logged : List String
  raised : Option String
  deriving DecidableEq

/-- The `try` block of `emitTrigger` (lines 152 to 174): the fetches attempted
and, when an `await` throws, the error that leaves the block. -/
def emitTryBlock (missionId : JsVal) (trigger : Trigger) (outcome : Sink → FetchOutcome) :
    List FetchCall × Option String :=
  let first : FetchCall :=
    { sink := .missionControlApi,
      body := .event missionId trigger.type
        (if truthy trigger.meta then trigger.meta else .obj .nil) }
  match outcome .missionControlApi with
  | .rejected err => ([first], some err)
  | .resolved _ =>
    let second : FetchCall :=
      { sink := .missionComms, body := .notification missionId trigger.type }
    match outcome .missionComms with
    | .rejected err => ([first, second], some err)
    | .resolved _ => ([first, second], none)

/-- The method `emitTrigger`: the `try` block, with `catch (err)` logging the
error and swallowing it. -/
def emitTrigger (missionId : JsVal) (trigger : Trigger) (outcome : Sink → FetchOutcome) :
    EmitResult :=
  match emitTryBlock missionId trigger outcome with
  | (calls, none) => { calls := calls, logged := [], raised := none }
  | (calls, some err) =>
    { calls := calls, logged := ["Trigger emission failed: " ++ err], raised := none }

/-! ## The alarm handler -/

/-- One invocation `emitTrigger(missionId, trigger)` made by the alarm handler. -/
structure EmitCall where
  missionId : JsVal
  trigger : Trigger
  result : EmitResult
  deriving DecidableEq

/-- The loop `for (const trigger of dueTriggers) await this.emitTrigger(...)`;
`outcomes i` gives the fetch outcomes met by the `i`-th due trigger. The loop
stops at the first invocation that lets an exception escape. -/
def emitLoop (missionId : JsVal) (outcomes : Nat → Sink → FetchOutcome) :
    Nat → List Trigger → List EmitCall × Option String
  | _, [] => ([], none)
  | i, trigger :: rest =>
    let result := emitTrigger missionId trigger (outcomes i)
    let call : EmitCall := { missionId := missionId, trigger := trigger, result := result }
    match result.raised with
    | some err => ([call], some err)
    | none =>
      let (calls, raised) := emitLoop missionId outcomes (i + 1) rest
      (call :: calls, raised)

/-- The test `new Date(t.time).getTime() <= now`; false when the time is `NaN`. -/
def isDue (dateParse : String → Option Int) (now : Int) (t : Trigger) : Bool :=
  match getTime dateParse t.time with
  | some time => decide (time ≤ now)
  | none => false

/-- The test `new Date(t.time).getTime() > now`; false when the time is `NaN`. -/
def isPending (dateParse : String → Option Int) (now : Int) (t : Trigger) : Bool :=
  match getTime dateParse t.time with
  | some time => decide (time > now)
  | none => false

/-- What one run of the alarm handler did: the instance it leaves, the
`emitTrigger` invocations it made in order, and the exception it let escape. -/
structure AlarmResult where
  self : Mission_Clocks
  emits : List EmitCall
  raised : Option String

/-- The method `alarm`; `now` is the clock read at line 123, `now₁` and `now₂`
are the clock reads of the `scheduleNextAlarm` call it ends with. -/
def alarm (dateParse : String → Option Int) (self : Mission_Clocks)
    (outcomes : Nat → Sink → FetchOutcome) (now now₁ now₂ : Int) : AlarmResult :=
  let missionId := storedMissionId self
  let triggers := storedTriggers self
  if triggers.length = 0 then
    { self := self, emits := [], raised := none }
  else
    let dueTriggers := triggers.filter (isDue dateParse now)
    if dueTriggers.length = 0 then
      { self := scheduleNextAlarm dateParse self now₁ now₂, emits := [], raised := none }
    else
      match emitLoop missionId outcomes 0 dueTriggers with
      | (emits, some err) => { self := self, emits := emits, raised := some err }
      | (emits, none) =>
        let triggers := triggers.filter (isPending dateParse now)
        let self := putTriggers self triggers
        { self := scheduleNextAlarm dateParse self now₁ now₂, emits := emits, raised := none }

/-! ## Sequences of operations -/

/-- One operation on the instance, with the clock readings and fetch outcomes
it meets. -/
inductive Op
  | init (body : InitBody) (now₁ now₂ : Int)
  | registerDocument (body : RegisterBody) (now₁ now₂ : Int)
  | cancelAll
  | alarm (outcomes : Nat → Sink → FetchOutcome) (now now₁ now₂ : Int)

/-- The instance left by one operation. -/
def step (dateParse : String → Option Int) (self : Mission_Clocks) : Op → Mission_Clocks
  | .init body now₁ now₂ => (init dateParse self body now₁ now₂).1
  | .registerDocument body now₁ now₂ => (registerDocument dateParse self body now₁ now₂).1
  | .cancelAll => (cancelAll self).1
  | .alarm outcomes now now₁ now₂ => (alarm dateParse self outcomes now now₁ now₂).self

/-- The instance left by a sequence of operations, run in order. -/
def run (dateParse : String → Option Int) (self : Mission_Clocks) (ops : List Op) :
    Mission_Clocks :=
  ops.foldl (step dateParse) self

/-! ## Vocabulary of the properties -/

/-- The time of a trigger parses to a timestamp. -/
def parseable (dateParse : String → Option Int) (t : Trigger) : Bool :=
  (getTime dateParse t.time).isSome

/-- The order `new Date(a.time).getTime() <= new Date(b.time).getTime()`: both
times parse and the first is not later than the second. -/
def timeLe (dateParse : String → Option Int) (a b : Trigger) : Bool :=
  match getTime dateParse a.time, getTime dateParse b.time with
  | some x, some y => decide (x ≤ y)
  | _, _ => false

/-- A trigger list is in ascending order of time. -/
def SortedByTime (dateParse : String → Option Int) (triggers : List Trigger) : Prop :=
  triggers.Pairwise (fun a b => timeLe dateParse a b = true)

/-- Every trigger time an operation supplies parses to a timestamp. -/
def Op.parseable (dateParse : String → Option Int) : Op → Bool
  | .init body _ _ => (buildTriggers body).all (MissionClocks.parseable dateParse)
  | .registerDocument body _ _ => (getTime dateParse body.expiry).isSome
  | .cancelAll => true
  | .alarm _ _ _ _ => true

/-- Timestamps of the date strings used in the worked examples; it agrees
with `Date.parse` on them and on the strings that are no date at all. -/
def exampleDates : String → Option Int
  | "1970-01-01T00:00:05.000Z" => some 5000
  | "1970-01-01T00:00:10.000Z" => some 10000
  | _ => none

/-- The stored collection has parseable times and is in ascending order. -/
def WellTimed (D : String → Option Int) (self : Mission_Clocks) : Prop :=
  (∀ t ∈ storedTriggers self, parseable D t = true) ∧ SortedByTime D (storedTriggers self)

/-- The fetch oracle under which every send resolves with status 200. -/
def allResolve : Nat → Sink → FetchOutcome := fun _ _ => .resolved 200

/-- A request body for the worked examples: two lock times and one SLA deadline. -/
def exampleBody : InitBody :=
  { missionId := .str "M1", departureTime := .undefined,
    t72LockTime := .str "1970-01-01T00:00:10.000Z", t48LockTime := .num 5000,
    slaDeadlines := [{ time := .num 7000, meta := .str "gold" }],
    documentExpirations := [] }

/-- A run for the worked examples: initialize, register a document due at
2000 ms, then a wakeup at 5000 ms. -/
def exampleOps : List Op :=
  [.init exampleBody 0 0,
   .registerDocument { documentId := .str "D1", expiry := .num 2000 } 1 1,
   .alarm allResolve 5000 5000 5000]

/-- A request whose T72 lock time is a non-empty string that is no date. -/
def undatedBody : InitBody :=
  { missionId := .str "M1", departureTime := .undefined,
    t72LockTime := .str "to be confirmed", t48LockTime := .num 5000,
    slaDeadlines := [], documentExpirations := [] }

/-- The instance left by initializing a fresh instance with `undatedBody`. -/
def undatedMission : Mission_Clocks :=
  (init exampleDates Mission_Clocks.fresh undatedBody 0 0).1

/-- The smallest time among the triggers of a list whose time parses; `none`
when there is none. -/
def earliestTime (dateParse : String → Option Int) : List Trigger → Option Int
  | [] => none
  | t :: rest =>
    match getTime dateParse t.time, earliestTime dateParse rest with
    | some x, some m => some (min x m)
    | some x, none => some x
    | none, r => r

/-- The wakeup `scheduleNextAlarm` arms for a head time `m`: `m` itself when it
is after the clock reading `now₁`, else one second after the reading `now₂`. -/
def rearmTarget (m now₁ now₂ : Int) : Int :=
  if m > now₁ then m else now₂ + 1000

/-- The number of fetches an `emitTrigger` run attempted against a sink. -/
def sendsTo (sink : Sink) (result : EmitResult) : Nat :=
  (result.calls.filter (fun call => call.sink = sink)).length

/-- A fetch oracle under which the primary send rejects (a transport error)
and the secondary send would resolve. -/
def primaryRejects : Sink → FetchOutcome
  | .missionControlApi => .rejected "network error"
  | .missionComms => .resolved 200

/-- The response `{ status: "initialized" }`. -/
def initializedResponse : Response := { status := 200, body := .jsonStatus "initialized" }

/-- The response `{ status: "registered" }`. -/
def registeredResponse : Response := { status := 200, body := .jsonStatus "registered" }

/-- The trigger `registerDocument` appends for a request body. -/
def documentTrigger (body : RegisterBody) : Trigger :=
  { type := "DOCUMENT_EXPIRED", time := body.expiry,
    meta := .obj (.cons "documentId" body.documentId .nil) }

/-- A lock time is given when the request carries a value for it, whatever
the value. -/
def lockTimeGiven (v : JsVal) : Bool := decide (v ≠ .undefined)

/-- A lock time is used when it is given and truthy: the number 0, `null`,
`false` and the empty string are given values that are not used. -/
def lockTimeUsed (v : JsVal) : Bool := lockTimeGiven v && truthy v

/-- The number of lock times a request gives. -/
def givenLockTimes (body : InitBody) : Nat :=
  (if lockTimeGiven body.t72LockTime then 1 else 0) +
  (if lockTimeGiven body.t48LockTime then 1 else 0)

/-- The number of lock times of a request that are given and truthy. -/
def usedLockTimes (body : InitBody) : Nat :=
  (if lockTimeUsed body.t72LockTime then 1 else 0) +
  (if lockTimeUsed body.t48LockTime then 1 else 0)

/-- The SLA and document triggers in the words of the specification: one
`SLA_BREACH` per SLA entry with its time and meta, one `DOCUMENT_EXPIRED` per
document entry with time the expiry and meta `{ documentId }`. -/
def expectedEntryTriggers (body : InitBody) : List Trigger :=
  body.slaDeadlines.map (fun entry => Trigger.mk "SLA_BREACH" entry.time entry.meta) ++
  body.documentExpirations.map (fun entry =>
    Trigger.mk "DOCUMENT_EXPIRED" entry.expiry
      (.obj (.cons "documentId" entry.documentId .nil)))

/-- The initial trigger list in the words of the specification: one `T72_LOCK`
if a T72 time is given, one `T48_LOCK` if a T48 time is given, then the SLA
and document triggers. -/
def expectedTriggers (body : InitBody) : List Trigger :=
  (if lockTimeGiven body.t72LockTime then
    [Trigger.mk "T72_LOCK" body.t72LockTime .undefined] else []) ++
  ((if lockTimeGiven body.t48LockTime then
    [Trigger.mk "T48_LOCK" body.t48LockTime .undefined] else []) ++
  expectedEntryTriggers body)

/-- The initial trigger list of the specification with a lock trigger only
for a lock time that is given and truthy. -/
def usedTriggers (body : InitBody) : List Trigger :=
  (if lockTimeUsed body.t72LockTime then
    [Trigger.mk "T72_LOCK" body.t72LockTime .undefined] else []) ++
  ((if lockTimeUsed body.t48LockTime then
    [Trigger.mk "T48_LOCK" body.t48LockTime .undefined] else []) ++
  expectedEntryTriggers body)

/-- A request whose T72 lock time is the number 0, the timestamp of the epoch,
with a T48 lock at 5000 ms. -/
def epochLockBody : InitBody :=
  { missionId := .str "M1", departureTime := .undefined,
    t72LockTime := .num 0, t48LockTime := .num 5000,
    slaDeadlines := [], documentExpirations := [] }

instance (dateParse : String → Option Int) (triggers : List Trigger) :
    Decidable (SortedByTime dateParse triggers) := by
  unfold SortedByTime
  infer_instance

/-- A request with a T72 lock at 10000 ms and an SLA deadline whose time is
no date. -/
def undatedSlaBody : InitBody :=
  { missionId := .str "M1", departureTime := .undefined,
    t72LockTime := .num 10000, t48LockTime := .undefined,
    slaDeadlines := [{ time := .str "to be confirmed", meta := .undefined }],
    documentExpirations := [] }

/-- The `emitTrigger` invocation for the T48 lock of the example request when
the primary send rejects. -/
def rejectedT48Emit : EmitCall :=
  { missionId := .str "M1",
    trigger := { type := "T48_LOCK", time := .num 5000, meta := .undefined },
    result :=
      { calls := [{ sink := .missionControlApi,
                    body := .event (.str "M1") "T48_LOCK" (.obj .nil) }],
        logged := ["Trigger emission failed: network error"],
        raised := none } }

/-- A request that supplies no trigger at all. -/
def emptyBody : InitBody :=
  { missionId := .str "M1", departureTime := .undefined,
    t72LockTime := .undefined, t48LockTime := .undefined,
    slaDeadlines := [], documentExpirations := [] }

/-- The response `{ status: "cancelled" }`. -/
def cancelledResponse : Response := { status := 200, body := .jsonStatus "cancelled" }

/-- A request for Scenario E: a T48 lock at 3000 ms, and an SLA deadline and a
document expiry that share the time 5000 ms. -/
def tiedBody : InitBody :=
  { missionId := .str "M1", departureTime := .undefined,
    t72LockTime := .undefined, t48LockTime := .num 3000,
    slaDeadlines := [{ time := .str "1970-01-01T00:00:05.000Z", meta := .undefined }],
    documentExpirations := [{ documentId := .str "D1", expiry := .num 5000 }] }

/-- The message to the primary sink in the words of the specification:
`{ missionId, eventType: trigger.type, meta }`. -/
def primaryMessage (missionId : JsVal) (trigger : Trigger) (meta : JsVal) : FetchCall :=
  { sink := .missionControlApi, body := .event missionId trigger.type meta }

/-- The message to the secondary sink in the words of the specification:
`{ missionId, notificationType: trigger.type }`. -/
def secondaryMessage (missionId : JsVal) (trigger : Trigger) : FetchCall :=
  { sink := .missionComms, body := .notification missionId trigger.type }

/-- The storage write of `initialize` that fails, if any. -/
inductive PutFault
  | none
  | missionId
  | triggers
  deriving DecidableEq

/-- How a call of a method ends: it returns a response, or an exception
leaves it. -/
inductive CallResult
  | returned (response : Response)
  | threw (err : String)
  deriving DecidableEq

/-- The method `initialize` over a key-value storage whose `put` may fail: a
failing `put` writes nothing and throws, an earlier `put` stays written, and
the exception leaves the method, which has no `try` block. -/
def initWithFault (dateParse : String → Option Int) (self : Mission_Clocks) (body : InitBody)
    (fault : PutFault) (now₁ now₂ : Int) : Mission_Clocks × CallResult :=
  if !truthy body.missionId then
    (self, .returned { status := 400, body := .text "missionId required" })
  else
    let triggers := sortTriggers dateParse (buildTriggers body)
    if fault = .missionId then
      (self, .threw "put missionId failed")
    else
      let self := putMissionId self body.missionId
      if fault = .triggers then
        (self, .threw "put triggers failed")
      else
        let self := putTriggers self triggers
        let self := scheduleNextAlarm dateParse self now₁ now₂
        ({ self with initialized := true },
          .returned { status := 200, body := .jsonStatus "initialized" })

/-- A second request for the mission `M2`, with a single T48 lock at 3000 ms. -/
def otherBody : InitBody :=
  { missionId := .str "M2", departureTime := .undefined,
    t72LockTime := .undefined, t48LockTime := .num 3000,
    slaDeadlines := [], documentExpirations := [] }

/-! ## Lemmas on the order of trigger times -/

theorem getTime_of_parseable {D : String → Option Int} {t : Trigger}
    (h : parseable D t = true) : ∃ x, getTime D t.time = some x := by
  unfold parseable at h
  exact Option.isSome_iff_exists.mp h

theorem timeLe_of_sortLe {D : String → Option Int} {a b : Trigger}
    (ha : parseable D a = true) (hb : parseable D b = true)
    (h : sortLe D a b = true) : timeLe D a b = true := by
  obtain ⟨x, hx⟩ := getTime_of_parseable ha
  obtain ⟨y, hy⟩ := getTime_of_parseable hb
  simp only [sortLe, compareFn, hx, hy, decide_eq_true_eq] at h
  simp only [timeLe, hx, hy, decide_eq_true_eq]
  omega

theorem timeLe_of_not_sortLe {D : String → Option Int} {a b : Trigger}
    (ha : parseable D a = true) (hb : parseable D b = true)
    (h : ¬ sortLe D a b = true) : timeLe D b a = true := by
  obtain ⟨x, hx⟩ := getTime_of_parseable ha
  obtain ⟨y, hy⟩ := getTime_of_parseable hb
  simp only [sortLe, compareFn, hx, hy, decide_eq_true_eq] at h
  simp only [timeLe, hx, hy, decide_eq_true_eq]
  omega

theorem timeLe_trans {D : String → Option Int} {a b c : Trigger}
    (hab : timeLe D a b = true) (hbc : timeLe D b c = true) : timeLe D a c = true := by
  unfold timeLe at *
  cases hx : getTime D a.time <;> cases hy : getTime D b.time <;>
    cases hz : getTime D c.time <;> simp_all
  omega

theorem sorted_orderedInsert {D : String → Option Int} (a : Trigger)
    (ha : parseable D a = true) :
    ∀ l : List Trigger, (∀ t ∈ l, parseable D t = true) → SortedByTime D l →
      SortedByTime D (List.orderedInsert (fun a b => sortLe D a b = true) a l)
  | [], _, _ => by simp [SortedByTime]
  | b :: l, hl, hs => by
    have hb : parseable D b = true := hl b (List.mem_cons_self b l)
    have hl' : ∀ t ∈ l, parseable D t = true := fun t ht => hl t (List.mem_cons_of_mem b ht)
    unfold SortedByTime at hs ⊢
    rw [List.pairwise_cons] at hs
    by_cases h : sortLe D a b = true
    · rw [List.orderedInsert, if_pos h]
      have hab := timeLe_of_sortLe ha hb h
      refine List.pairwise_cons.mpr ⟨?_, List.pairwise_cons.mpr hs⟩
      intro c hc
      rcases List.mem_cons.mp hc with rfl | hc
      · exact hab
      · exact timeLe_trans hab (hs.1 c hc)
    · rw [List.orderedInsert, if_neg h]
      have hba := timeLe_of_not_sortLe ha hb h
      refine List.pairwise_cons.mpr ⟨?_, sorted_orderedInsert a ha l hl' hs.2⟩
      intro c hc
      rcases (List.mem_orderedInsert _).mp hc with rfl | hc
      · exact hba
      · exact hs.1 c hc

theorem sorted_sortTriggers {D : String → Option Int} :
    ∀ l : List Trigger, (∀ t ∈ l, parseable D t = true) → SortedByTime D (sortTriggers D l)
  | [], _ => by simp [SortedByTime, sortTriggers]
  | a :: l, hl => by
    have ha : parseable D a = true := hl a (List.mem_cons_self a l)
    have hl' : ∀ t ∈ l, parseable D t = true := fun t ht => hl t (List.mem_cons_of_mem a ht)
    have ih := sorted_sortTriggers l hl'
    unfold sortTriggers at ih ⊢
    rw [List.insertionSort]
    refine sorted_orderedInsert a ha _ ?_ ih
    intro t ht
    exact hl' t ((List.mem_insertionSort _).mp ht)

theorem perm_sortTriggers (D : String → Option Int) (l : List Trigger) :
    (sortTriggers D l).Perm l :=
  List.perm_insertionSort _ l

theorem mem_sortTriggers {D : String → Option Int} {l : List Trigger} {t : Trigger} :
    t ∈ sortTriggers D l ↔ t ∈ l :=
  (perm_sortTriggers D l).mem_iff

/-! ## Lemmas on the operations -/

theorem scheduleNextAlarm_storage (D : String → Option Int) (self : Mission_Clocks)
    (now₁ now₂ : Int) : (scheduleNextAlarm D self now₁ now₂).storage = self.storage := by
  unfold scheduleNextAlarm
  cases storedTriggers self with
  | nil => rfl
  | cons t rest =>
    dsimp only
    cases getTime D t.time with
    | none => rfl
    | some x => dsimp only; split <;> rfl

theorem storedTriggers_scheduleNextAlarm (D : String → Option Int) (self : Mission_Clocks)
    (now₁ now₂ : Int) :
    storedTriggers (scheduleNextAlarm D self now₁ now₂) = storedTriggers self := by
  unfold storedTriggers
  rw [scheduleNextAlarm_storage]

theorem storedTriggers_putTriggers (self : Mission_Clocks) (l : List Trigger) :
    storedTriggers (putTriggers self l) = l := rfl

theorem emitTrigger_raised (missionId : JsVal) (trigger : Trigger)
    (outcome : Sink → FetchOutcome) : (emitTrigger missionId trigger outcome).raised = none := by
  unfold emitTrigger
  split <;> rfl

theorem emitLoop_raised (missionId : JsVal) (outcomes : Nat → Sink → FetchOutcome) :
    ∀ (l : List Trigger) (i : Nat), (emitLoop missionId outcomes i l).2 = none
  | [], _ => rfl
  | t :: rest, i => by
    simp only [emitLoop, emitTrigger_raised]
    exact emitLoop_raised missionId outcomes rest (i + 1)

theorem emitLoop_triggers (missionId : JsVal) (outcomes : Nat → Sink → FetchOutcome) :
    ∀ (l : List Trigger) (i : Nat),
      (emitLoop missionId outcomes i l).1.map EmitCall.trigger = l
  | [], _ => rfl
  | t :: rest, i => by
    simp only [emitLoop, emitTrigger_raised, List.map_cons]
    rw [emitLoop_triggers missionId outcomes rest (i + 1)]

theorem alarm_raised (D : String → Option Int) (self : Mission_Clocks)
    (outcomes : Nat → Sink → FetchOutcome) (now now₁ now₂ : Int) :
    (alarm D self outcomes now now₁ now₂).raised = none := by
  unfold alarm
  dsimp only
  split
  · rfl
  · split
    · rfl
    · split
      · next emits err h =>
        have := emitLoop_raised (storedMissionId self) outcomes
          ((storedTriggers self).filter (isDue D now)) 0
        rw [h] at this
        exact absurd this (by simp)
      · rfl

theorem alarm_emits (D : String → Option Int) (self : Mission_Clocks)
    (outcomes : Nat → Sink → FetchOutcome) (now now₁ now₂ : Int) :
    (alarm D self outcomes now now₁ now₂).emits =
      (emitLoop (storedMissionId self) outcomes 0
        ((storedTriggers self).filter (isDue D now))).1 := by
  unfold alarm
  dsimp only
  split
  · next h =>
    rw [List.length_eq_zero.mp h]
    rfl
  · split
    · next h =>
      rw [List.length_eq_zero.mp h]
      rfl
    · split
      · next emits err h => rw [h]
      · next emits h => rw [h]

theorem alarm_storedTriggers (D : String → Option Int) (self : Mission_Clocks)
    (outcomes : Nat → Sink → FetchOutcome) (now now₁ now₂ : Int) :
    storedTriggers (alarm D self outcomes now now₁ now₂).self =
      if (storedTriggers self).filter (isDue D now) = [] then storedTriggers self
      else (storedTriggers self).filter (isPending D now) := by
  unfold alarm
  dsimp only
  split
  · next h =>
    rw [List.length_eq_zero.mp h]
    rfl
  · split
    · next h =>
      rw [if_pos (List.length_eq_zero.mp h), storedTriggers_scheduleNextAlarm]
    · next h =>
      have hne : ¬ (storedTriggers self).filter (isDue D now) = [] :=
        fun h0 => h (List.length_eq_zero.mpr h0)
      rw [if_neg hne]
      split
      · next emits err h =>
        have := emitLoop_raised (storedMissionId self) outcomes
          ((storedTriggers self).filter (isDue D now)) 0
        rw [h] at this
        exact absurd this (by simp)
      · rw [storedTriggers_scheduleNextAlarm, storedTriggers_putTriggers]

theorem alarm_missionId (D : String → Option Int) (self : Mission_Clocks)
    (outcomes : Nat → Sink → FetchOutcome) (now now₁ now₂ : Int) :
    (alarm D self outcomes now now₁ now₂).self.storage.missionId = self.storage.missionId := by
  unfold alarm
  dsimp only
  split
  · rfl
  · split
    · rw [scheduleNextAlarm_storage]
    · split
      · rfl
      · rw [scheduleNextAlarm_storage]
        rfl

theorem init_storedTriggers (D : String → Option Int) (self : Mission_Clocks) (body : InitBody)
    (now₁ now₂ : Int) (h : truthy body.missionId = true) :
    storedTriggers (init D self body now₁ now₂).1 = sortTriggers D (buildTriggers body) := by
  unfold init
  simp only [h, Bool.not_true, Bool.false_eq_true, if_false]
  show storedTriggers (scheduleNextAlarm D _ now₁ now₂) = _
  rw [storedTriggers_scheduleNextAlarm]
  rfl

theorem init_rejected (D : String → Option Int) (self : Mission_Clocks) (body : InitBody)
    (now₁ now₂ : Int) (h : truthy body.missionId = false) :
    init D self body now₁ now₂ = (self, { status := 400, body := .text "missionId required" }) := by
  unfold init
  simp [h]

theorem registerDocument_storedTriggers (D : String → Option Int) (self : Mission_Clocks)
    (body : RegisterBody) (now₁ now₂ : Int) :
    storedTriggers (registerDocument D self body now₁ now₂).1 =
      sortTriggers D (storedTriggers self ++
        [{ type := "DOCUMENT_EXPIRED", time := body.expiry,
           meta := .obj (.cons "documentId" body.documentId .nil) }]) := by
  unfold registerDocument
  show storedTriggers (scheduleNextAlarm D _ now₁ now₂) = _
  rw [storedTriggers_scheduleNextAlarm]
  rfl

/-! ## The ordering invariant -/

theorem wellTimed_of_empty (D : String → Option Int) (self : Mission_Clocks)
    (h : self.storage = Storage.empty) : WellTimed D self := by
  have : storedTriggers self = [] := by
    unfold storedTriggers
    rw [h]
    rfl
  unfold WellTimed SortedByTime
  rw [this]
  exact ⟨fun t ht => absurd ht (List.not_mem_nil t), List.Pairwise.nil⟩

theorem wellTimed_step (D : String → Option Int) (self : Mission_Clocks) (op : Op)
    (hop : op.parseable D = true) (h : WellTimed D self) : WellTimed D (step D self op) := by
  cases op with
  | init body now₁ now₂ =>
    have hb : ∀ t ∈ buildTriggers body, parseable D t = true := by
      simpa [Op.parseable, List.all_eq_true] using hop
    show WellTimed D (init D self body now₁ now₂).1
    cases hm : truthy body.missionId with
    | false => rw [init_rejected D self body now₁ now₂ hm]; exact h
    | true =>
      unfold WellTimed
      rw [init_storedTriggers D self body now₁ now₂ hm]
      exact ⟨fun t ht => hb t (mem_sortTriggers.mp ht), sorted_sortTriggers _ hb⟩
  | registerDocument body now₁ now₂ =>
    have he : (getTime D body.expiry).isSome = true := by
      simpa [Op.parseable] using hop
    have hall : ∀ t ∈ storedTriggers self ++
        [{ type := "DOCUMENT_EXPIRED", time := body.expiry,
           meta := .obj (.cons "documentId" body.documentId .nil) }],
        parseable D t = true := by
      intro t ht
      rcases List.mem_append.mp ht with ht | ht
      · exact h.1 t ht
      · rw [List.mem_singleton.mp ht]
        exact he
    show WellTimed D (registerDocument D self body now₁ now₂).1
    unfold WellTimed
    rw [registerDocument_storedTriggers]
    exact ⟨fun t ht => hall t (mem_sortTriggers.mp ht), sorted_sortTriggers _ hall⟩
  | cancelAll =>
    exact wellTimed_of_empty D _ rfl
  | alarm outcomes now now₁ now₂ =>
    show WellTimed D (alarm D self outcomes now now₁ now₂).self
    unfold WellTimed
    rw [alarm_storedTriggers]
    split
    · exact h
    · exact ⟨fun t ht => h.1 t (List.mem_filter.mp ht).1, List.Pairwise.filter _ h.2⟩

theorem wellTimed_run (D : String → Option Int) :
    ∀ (ops : List Op) (self : Mission_Clocks), (∀ op ∈ ops, op.parseable D = true) →
      WellTimed D self → WellTimed D (run D self ops)
  | [], _, _, h => h
  | op :: ops, self, hops, h => by
    show WellTimed D (run D (step D self op) ops)
    exact wellTimed_run D ops _ (fun o ho => hops o (List.mem_cons_of_mem op ho))
      (wellTimed_step D self op (hops op (List.mem_cons_self op ops)) h)

/-- C1. Ordering invariant: starting from an instance with empty storage, after
every prefix of a sequence of initialize, registerDocument, cancelAll and alarm
operations whose supplied trigger times all parse to a timestamp, the list
persisted under `triggers` is in ascending order of time. -/
theorem persisted_triggers_sorted_after_each_operation (dateParse : String → Option Int)
    (self : Mission_Clocks) (ops : List Op) (n : Nat)
    (hempty : self.storage = Storage.empty)
    (hops : ∀ op ∈ ops, op.parseable dateParse = true) :
    SortedByTime dateParse (storedTriggers (run dateParse self (ops.take n))) :=
  (wellTimed_run dateParse (ops.take n) self
    (fun op hop => hops op (List.mem_of_mem_take hop))
    (wellTimed_of_empty dateParse self hempty)).2

/-- C1 at a concrete run: initialize with two lock times and one SLA deadline,
register a document, then a wakeup at 5000 ms. -/
theorem persisted_triggers_sorted_after_each_operation_witness :
    Mission_Clocks.fresh.storage = Storage.empty ∧
    (∀ op ∈ exampleOps, op.parseable exampleDates = true) ∧
    SortedByTime exampleDates
      (storedTriggers (run exampleDates Mission_Clocks.fresh (exampleOps.take 3))) ∧
    storedTriggers (run exampleDates Mission_Clocks.fresh (exampleOps.take 3)) =
      [{ type := "SLA_BREACH", time := .num 7000, meta := .str "gold" },
       { type := "T72_LOCK", time := .str "1970-01-01T00:00:10.000Z", meta := .undefined }] :=
  ⟨rfl, by decide,
   persisted_triggers_sorted_after_each_operation exampleDates Mission_Clocks.fresh
     exampleOps 3 rfl (by decide),
   by decide⟩

/-! ## Due extraction -/

theorem isPending_eq_not_isDue {D : String → Option Int} {t : Trigger} (now : Int)
    (h : parseable D t = true) : isPending D now t = !isDue D now t := by
  obtain ⟨x, hx⟩ := getTime_of_parseable h
  simp only [isPending, isDue, hx]
  by_cases hle : x ≤ now
  · simp [hle]
  · simp [hle, Int.not_le.mp hle]

theorem filter_isPending_eq {D : String → Option Int} (now : Int) :
    ∀ l : List Trigger, (∀ t ∈ l, parseable D t = true) →
      l.filter (isPending D now) = l.filter (fun t => !isDue D now t)
  | [], _ => rfl
  | a :: l, h => by
    have ha := isPending_eq_not_isDue now (h a (List.mem_cons_self a l))
    have ih := filter_isPending_eq now l (fun t ht => h t (List.mem_cons_of_mem a ht))
    simp only [List.filter_cons, ha, ih]

/-- C2, as amended. Due extraction: for every persisted collection whose
trigger times all parse and every instant `now`, the alarm handler emits
exactly the stored triggers with time at most `now`, in stored order, leaves
persisted exactly the stored triggers with time after `now`, in stored order;
emitted and remaining together are a permutation of the original collection,
and no emitted trigger stays stored. -/
theorem alarm_extracts_exactly_the_due_triggers (dateParse : String → Option Int)
    (self : Mission_Clocks) (outcomes : Nat → Sink → FetchOutcome) (now now₁ now₂ : Int)
    (hp : ∀ t ∈ storedTriggers self, parseable dateParse t = true) :
    (alarm dateParse self outcomes now now₁ now₂).emits.map EmitCall.trigger =
        (storedTriggers self).filter (isDue dateParse now) ∧
    storedTriggers (alarm dateParse self outcomes now now₁ now₂).self =
        (storedTriggers self).filter (isPending dateParse now) ∧
    ((alarm dateParse self outcomes now now₁ now₂).emits.map EmitCall.trigger ++
        storedTriggers (alarm dateParse self outcomes now now₁ now₂).self).Perm
      (storedTriggers self) ∧
    ∀ t ∈ (alarm dateParse self outcomes now now₁ now₂).emits.map EmitCall.trigger,
      t ∉ storedTriggers (alarm dateParse self outcomes now now₁ now₂).self := by
  have hemit : (alarm dateParse self outcomes now now₁ now₂).emits.map EmitCall.trigger =
      (storedTriggers self).filter (isDue dateParse now) := by
    rw [alarm_emits, emitLoop_triggers]
  have hkeep : storedTriggers (alarm dateParse self outcomes now now₁ now₂).self =
      (storedTriggers self).filter (fun t => !isDue dateParse now t) := by
    rw [alarm_storedTriggers]
    split
    · next h =>
      symm
      rw [List.filter_eq_self]
      intro t ht
      have := List.filter_eq_nil_iff.mp h t ht
      simpa using this
    · exact filter_isPending_eq now _ hp
  refine ⟨hemit, ?_, ?_, ?_⟩
  · rw [hkeep, filter_isPending_eq now _ hp]
  · rw [hemit, hkeep]
    exact List.filter_append_perm _ _
  · rw [hemit, hkeep]
    intro t hdue hkept
    have h1 := (List.mem_filter.mp hdue).2
    have h2 := (List.mem_filter.mp hkept).2
    simp [h1] at h2

/-- C2, as amended, at the wakeup at 5000 ms that follows Scenario C: the
document trigger and the T48 lock are emitted, the SLA deadline and the T72
lock stay stored. -/
theorem alarm_extracts_exactly_the_due_triggers_witness :
    (∀ t ∈ storedTriggers (run exampleDates Mission_Clocks.fresh (exampleOps.take 2)),
      parseable exampleDates t = true) ∧
    (alarm exampleDates (run exampleDates Mission_Clocks.fresh (exampleOps.take 2))
        allResolve 5000 5000 5000).emits.map EmitCall.trigger =
      [{ type := "DOCUMENT_EXPIRED", time := .num 2000,
         meta := .obj (.cons "documentId" (.str "D1") .nil) },
       { type := "T48_LOCK", time := .num 5000, meta := .undefined }] ∧
    storedTriggers (alarm exampleDates (run exampleDates Mission_Clocks.fresh (exampleOps.take 2))
        allResolve 5000 5000 5000).self =
      [{ type := "SLA_BREACH", time := .num 7000, meta := .str "gold" },
       { type := "T72_LOCK", time := .str "1970-01-01T00:00:10.000Z", meta := .undefined }] :=
  have h := alarm_extracts_exactly_the_due_triggers exampleDates
    (run exampleDates Mission_Clocks.fresh (exampleOps.take 2)) allResolve 5000 5000 5000
    (by decide)
  ⟨by decide, h.1.trans (by decide), h.2.1.trans (by decide)⟩

/-- C2 fails as stated. The collection persisted by initializing with an
undated T72 lock and a T48 lock at 5000 ms holds both triggers; the wakeup at
6000 ms emits the T48 lock only and persists the empty list, so the undated
trigger is lost: emitted and remaining are no permutation of the original. -/
theorem alarm_drops_unparseable_trigger :
    storedTriggers undatedMission =
      [{ type := "T72_LOCK", time := .str "to be confirmed", meta := .undefined },
       { type := "T48_LOCK", time := .num 5000, meta := .undefined }] ∧
    (alarm exampleDates undatedMission allResolve 6000 6000 6000).emits.map EmitCall.trigger =
      [{ type := "T48_LOCK", time := .num 5000, meta := .undefined }] ∧
    storedTriggers (alarm exampleDates undatedMission allResolve 6000 6000 6000).self = [] ∧
    ¬ ((alarm exampleDates undatedMission allResolve 6000 6000 6000).emits.map EmitCall.trigger ++
        storedTriggers (alarm exampleDates undatedMission allResolve 6000 6000 6000).self).Perm
      (storedTriggers undatedMission) := by
  refine ⟨by decide, by decide, by decide, ?_⟩
  intro h
  exact absurd h.length_eq (by decide)

/-! ## Rearming -/

theorem earliestTime_mem {D : String → Option Int} :
    ∀ (l : List Trigger) (m : Int), earliestTime D l = some m →
      ∃ t ∈ l, getTime D t.time = some m
  | [], m, h => by simp [earliestTime] at h
  | a :: l, m, h => by
    unfold earliestTime at h
    cases hx : getTime D a.time with
    | none =>
      rw [hx] at h
      obtain ⟨t, ht, hm⟩ := earliestTime_mem l m h
      exact ⟨t, List.mem_cons_of_mem a ht, hm⟩
    | some x =>
      rw [hx] at h
      cases hr : earliestTime D l with
      | none =>
        rw [hr] at h
        simp only [Option.some.injEq] at h
        exact ⟨a, List.mem_cons_self a l, by rw [hx, h]⟩
      | some r =>
        rw [hr] at h
        simp only [Option.some.injEq] at h
        by_cases hle : x ≤ r
        · rw [min_eq_left hle] at h
          exact ⟨a, List.mem_cons_self a l, by rw [hx, h]⟩
        · rw [min_eq_right (Int.le_of_lt (Int.not_le.mp hle))] at h
          obtain ⟨t, ht, hm⟩ := earliestTime_mem l r hr
          exact ⟨t, List.mem_cons_of_mem a ht, by rw [hm, h]⟩

theorem earliestTime_le {D : String → Option Int} :
    ∀ (l : List Trigger) (m : Int), earliestTime D l = some m →
      ∀ t ∈ l, ∀ x, getTime D t.time = some x → m ≤ x
  | [], _, _, t, ht, _, _ => absurd ht (List.not_mem_nil t)
  | a :: l, m, h, t, ht, x, hx => by
    unfold earliestTime at h
    rcases List.mem_cons.mp ht with rfl | ht
    · rw [hx] at h
      cases hr : earliestTime D l with
      | none =>
        rw [hr] at h
        simp only [Option.some.injEq] at h
        omega
      | some r =>
        rw [hr] at h
        simp only [Option.some.injEq] at h
        rw [← h]
        exact min_le_left x r
    · cases hr : earliestTime D l with
      | none =>
        exfalso
        have : ∀ (l : List Trigger), earliestTime D l = none →
            ∀ t ∈ l, getTime D t.time = none := by
          intro l
          induction l with
          | nil => intro _ t ht; exact absurd ht (List.not_mem_nil t)
          | cons b l ih =>
            intro hb t ht
            unfold earliestTime at hb
            cases hbx : getTime D b.time with
            | some y =>
              rw [hbx] at hb
              cases hl : earliestTime D l <;> rw [hl] at hb <;> simp at hb
            | none =>
              rw [hbx] at hb
              rcases List.mem_cons.mp ht with rfl | ht
              · exact hbx
              · exact ih hb t ht
        have := this l hr t ht
        rw [hx] at this
        exact absurd this (by simp)
      | some r =>
        have hrx := earliestTime_le l r hr t ht x hx
        rw [hr] at h
        cases ha : getTime D a.time with
        | none =>
          rw [ha] at h
          simp only [Option.some.injEq] at h
          omega
        | some y =>
          rw [ha] at h
          simp only [Option.some.injEq] at h
          rw [← h]
          exact le_trans (min_le_right y r) hrx

theorem earliestTime_of_sorted {D : String → Option Int} (a : Trigger) (l : List Trigger)
    (x : Int) (hx : getTime D a.time = some x) (hs : SortedByTime D (a :: l)) :
    earliestTime D (a :: l) = some x := by
  unfold earliestTime
  rw [hx]
  cases hr : earliestTime D l with
  | none => rfl
  | some r =>
    obtain ⟨t, ht, hm⟩ := earliestTime_mem l r hr
    have hat := (List.pairwise_cons.mp hs).1 t ht
    simp only [timeLe, hx, hm, decide_eq_true_eq] at hat
    show some (min x r) = some x
    rw [min_eq_left hat]

theorem scheduleNextAlarm_armed (D : String → Option Int) (self : Mission_Clocks)
    (now₁ now₂ : Int) (hwt : WellTimed D self) (hne : storedTriggers self ≠ []) :
    ∃ m, earliestTime D (storedTriggers self) = some m ∧
      (scheduleNextAlarm D self now₁ now₂).armed = some (rearmTarget m now₁ now₂) := by
  unfold scheduleNextAlarm
  cases hl : storedTriggers self with
  | nil => exact absurd hl hne
  | cons a l =>
    have ha : parseable D a = true := hwt.1 a (by rw [hl]; exact List.mem_cons_self a l)
    obtain ⟨x, hx⟩ := getTime_of_parseable ha
    have hs : SortedByTime D (a :: l) := by rw [← hl]; exact hwt.2
    refine ⟨x, earliestTime_of_sorted a l x hx hs, ?_⟩
    simp only [hx, rearmTarget]
    split <;> rfl

theorem alarm_self (D : String → Option Int) (self : Mission_Clocks)
    (outcomes : Nat → Sink → FetchOutcome) (now now₁ now₂ : Int) :
    (alarm D self outcomes now now₁ now₂).self =
      if storedTriggers self = [] then self
      else if (storedTriggers self).filter (isDue D now) = [] then
        scheduleNextAlarm D self now₁ now₂
      else
        scheduleNextAlarm D
          (putTriggers self ((storedTriggers self).filter (isPending D now))) now₁ now₂ := by
  unfold alarm
  dsimp only
  split
  · next h => rw [if_pos (List.length_eq_zero.mp h)]
  · next h =>
    rw [if_neg (fun h0 => h (List.length_eq_zero.mpr h0))]
    split
    · next h2 => rw [if_pos (List.length_eq_zero.mp h2)]
    · next h2 =>
      rw [if_neg (fun h0 => h2 (List.length_eq_zero.mpr h0))]
      split
      · next emits err h3 =>
        have := emitLoop_raised (storedMissionId self) outcomes
          ((storedTriggers self).filter (isDue D now)) 0
        rw [h3] at this
        exact absurd this (by simp)
      · rfl

theorem sortTriggers_ne_nil (D : String → Option Int) (l : List Trigger) (h : l ≠ []) :
    sortTriggers D l ≠ [] := by
  intro h0
  have := (perm_sortTriggers D l).length_eq
  rw [h0] at this
  exact h (List.length_eq_zero.mp this.symm)

theorem wellTimed_putTriggers (D : String → Option Int) (self : Mission_Clocks)
    (l : List Trigger) (hp : ∀ t ∈ l, parseable D t = true) (hs : SortedByTime D l) :
    WellTimed D (putTriggers self l) := ⟨hp, hs⟩

/-- C3, as amended. Rearm targets the earliest: on an instance whose stored
times parse and ascend, after a successful initialize or a registerDocument
with parseable times, or an alarm invocation, that leaves a non-empty
persisted collection, the armed wakeup is the smallest time `m` of the
resulting collection when `m` is after the clock reading, and is the clock
reading plus 1000 ms when `m` is not after it. -/
theorem rearm_targets_earliest_or_one_second_ahead (dateParse : String → Option Int)
    (self : Mission_Clocks) (hwt : WellTimed dateParse self) :
    (∀ (body : InitBody) (now₁ now₂ : Int), truthy body.missionId = true →
      (∀ t ∈ buildTriggers body, parseable dateParse t = true) →
      storedTriggers (init dateParse self body now₁ now₂).1 ≠ [] →
      ∃ m, earliestTime dateParse (storedTriggers (init dateParse self body now₁ now₂).1)
            = some m ∧
          (init dateParse self body now₁ now₂).1.armed = some (rearmTarget m now₁ now₂)) ∧
    (∀ (body : RegisterBody) (now₁ now₂ : Int),
      (getTime dateParse body.expiry).isSome = true →
      storedTriggers (registerDocument dateParse self body now₁ now₂).1 ≠ [] ∧
      ∃ m, earliestTime dateParse
            (storedTriggers (registerDocument dateParse self body now₁ now₂).1) = some m ∧
          (registerDocument dateParse self body now₁ now₂).1.armed
            = some (rearmTarget m now₁ now₂)) ∧
    (∀ (outcomes : Nat → Sink → FetchOutcome) (now now₁ now₂ : Int),
      storedTriggers (alarm dateParse self outcomes now now₁ now₂).self ≠ [] →
      ∃ m, earliestTime dateParse
            (storedTriggers (alarm dateParse self outcomes now now₁ now₂).self) = some m ∧
          (alarm dateParse self outcomes now now₁ now₂).self.armed
            = some (rearmTarget m now₁ now₂)) := by
  refine ⟨?_, ?_, ?_⟩
  · intro body now₁ now₂ hm hb hne
    have hst := init_storedTriggers dateParse self body now₁ now₂ hm
    rw [hst] at hne ⊢
    have hw : WellTimed dateParse (putTriggers (putMissionId self body.missionId)
        (sortTriggers dateParse (buildTriggers body))) :=
      wellTimed_putTriggers dateParse _ _ (fun t ht => hb t (mem_sortTriggers.mp ht))
        (sorted_sortTriggers _ hb)
    obtain ⟨m, hm1, hm2⟩ := scheduleNextAlarm_armed dateParse _ now₁ now₂ hw hne
    refine ⟨m, hm1, ?_⟩
    rw [← hm2]
    unfold init
    simp only [hm, Bool.not_true, Bool.false_eq_true, if_false]
  · intro body now₁ now₂ he
    have hall : ∀ t ∈ storedTriggers self ++
        [{ type := "DOCUMENT_EXPIRED", time := body.expiry,
           meta := .obj (.cons "documentId" body.documentId .nil) }],
        parseable dateParse t = true := by
      intro t ht
      rcases List.mem_append.mp ht with ht | ht
      · exact hwt.1 t ht
      · rw [List.mem_singleton.mp ht]
        exact he
    have hst := registerDocument_storedTriggers dateParse self body now₁ now₂
    have hne : sortTriggers dateParse (storedTriggers self ++
        [{ type := "DOCUMENT_EXPIRED", time := body.expiry,
           meta := .obj (.cons "documentId" body.documentId .nil) }]) ≠ [] := by
      exact sortTriggers_ne_nil dateParse _ (by simp)
    rw [hst]
    refine ⟨hne, ?_⟩
    have hw : WellTimed dateParse (putTriggers self (sortTriggers dateParse
        (storedTriggers self ++
          [{ type := "DOCUMENT_EXPIRED", time := body.expiry,
             meta := .obj (.cons "documentId" body.documentId .nil) }]))) :=
      wellTimed_putTriggers dateParse _ _ (fun t ht => hall t (mem_sortTriggers.mp ht))
        (sorted_sortTriggers _ hall)
    exact scheduleNextAlarm_armed dateParse _ now₁ now₂ hw hne
  · intro outcomes now now₁ now₂ hne
    rw [alarm_self] at hne ⊢
    by_cases h0 : storedTriggers self = []
    · rw [if_pos h0] at hne
      exact absurd h0 hne
    · rw [if_neg h0] at hne ⊢
      by_cases h1 : (storedTriggers self).filter (isDue dateParse now) = []
      · rw [if_pos h1] at hne ⊢
        rw [storedTriggers_scheduleNextAlarm] at hne ⊢
        exact scheduleNextAlarm_armed dateParse self now₁ now₂ hwt hne
      · rw [if_neg h1] at hne ⊢
        rw [storedTriggers_scheduleNextAlarm, storedTriggers_putTriggers] at hne ⊢
        have hw : WellTimed dateParse
            (putTriggers self ((storedTriggers self).filter (isPending dateParse now))) :=
          wellTimed_putTriggers dateParse _ _
            (fun t ht => hwt.1 t (List.mem_filter.mp ht).1) (List.Pairwise.filter _ hwt.2)
        exact scheduleNextAlarm_armed dateParse _ now₁ now₂ hw hne

/-- C3, as amended, on Scenarios A and B: initializing at 0 ms arms the wakeup
at 5000 ms, the earliest time; the wakeup handled at 5000 ms, rearming at
5001 ms, arms 7000 ms, the earliest time left. -/
theorem rearm_targets_earliest_or_one_second_ahead_witness :
    WellTimed exampleDates Mission_Clocks.fresh ∧
    WellTimed exampleDates (init exampleDates Mission_Clocks.fresh exampleBody 0 0).1 ∧
    (init exampleDates Mission_Clocks.fresh exampleBody 0 0).1.armed = some 5000 ∧
    (alarm exampleDates (init exampleDates Mission_Clocks.fresh exampleBody 0 0).1
      allResolve 5000 5001 5001).self.armed = some 7000 := by
  have hw0 : WellTimed exampleDates Mission_Clocks.fresh :=
    wellTimed_of_empty exampleDates _ rfl
  have hw1 : WellTimed exampleDates (init exampleDates Mission_Clocks.fresh exampleBody 0 0).1 :=
    wellTimed_step exampleDates Mission_Clocks.fresh (.init exampleBody 0 0) (by decide) hw0
  obtain ⟨m, hm, ha⟩ :=
    (rearm_targets_earliest_or_one_second_ahead exampleDates Mission_Clocks.fresh hw0).1
      exampleBody 0 0 (by decide) (by decide) (by decide)
  obtain ⟨m', hm', ha'⟩ :=
    (rearm_targets_earliest_or_one_second_ahead exampleDates _ hw1).2.2
      allResolve 5000 5001 5001 (by decide)
  refine ⟨hw0, hw1, ?_, ?_⟩
  · rw [ha]
    have : m = 5000 := Option.some.inj (hm.symm.trans (by decide))
    rw [this]
    decide
  · rw [ha']
    have : m' = 7000 := Option.some.inj (hm'.symm.trans (by decide))
    rw [this]
    decide

/-- C3 fails as stated. Initializing at 6500 ms with triggers at 5000, 7000
and 10000 ms persists all three, whose smallest time is 5000 ms, and arms the
wakeup at 7500 ms: the earliest trigger is already due, so the wakeup is set
one second ahead of the clock. -/
theorem rearm_of_due_head_is_one_second_ahead :
    storedTriggers (init exampleDates Mission_Clocks.fresh exampleBody 6500 6500).1 =
      [{ type := "T48_LOCK", time := .num 5000, meta := .undefined },
       { type := "SLA_BREACH", time := .num 7000, meta := .str "gold" },
       { type := "T72_LOCK", time := .str "1970-01-01T00:00:10.000Z", meta := .undefined }] ∧
    earliestTime exampleDates
      (storedTriggers (init exampleDates Mission_Clocks.fresh exampleBody 6500 6500).1)
      = some 5000 ∧
    (init exampleDates Mission_Clocks.fresh exampleBody 6500 6500).1.armed = some 7500 := by
  decide

/-! ## Emission -/

theorem emitTrigger_calls (missionId : JsVal) (trigger : Trigger)
    (outcome : Sink → FetchOutcome) :
    (emitTrigger missionId trigger outcome).calls =
      match outcome .missionControlApi with
      | .rejected _ =>
        [{ sink := .missionControlApi,
           body := .event missionId trigger.type
             (if truthy trigger.meta then trigger.meta else .obj .nil) }]
      | .resolved _ =>
        [{ sink := .missionControlApi,
           body := .event missionId trigger.type
             (if truthy trigger.meta then trigger.meta else .obj .nil) },
         { sink := .missionComms, body := .notification missionId trigger.type }] := by
  unfold emitTrigger emitTryBlock
  cases outcome .missionControlApi with
  | rejected e => rfl
  | resolved c =>
    cases outcome .missionComms with
    | rejected e => rfl
    | resolved c' => rfl

theorem emitLoop_getElem (missionId : JsVal) (outcomes : Nat → Sink → FetchOutcome) :
    ∀ (l : List Trigger) (i j : Nat) (c : EmitCall),
      (emitLoop missionId outcomes i l).1[j]? = some c →
      c.missionId = missionId ∧
      c.result = emitTrigger missionId c.trigger (outcomes (i + j))
  | [], _, j, c, h => by simp [emitLoop] at h
  | t :: rest, i, j, c, h => by
    simp only [emitLoop, emitTrigger_raised] at h
    cases j with
    | zero =>
      simp only [List.getElem?_cons_zero, Option.some.injEq] at h
      subst h
      exact ⟨rfl, rfl⟩
    | succ j =>
      simp only [List.getElem?_cons_succ] at h
      have := emitLoop_getElem missionId outcomes rest (i + 1) j c h
      rw [show i + (j + 1) = i + 1 + j by omega]
      exact this

/-- C4, as amended. One notification attempt per due trigger: the alarm
handler invokes `emitTrigger` once for each stored trigger that is due, in
stored order, and the `i`-th invocation attempts exactly one send to the
primary sink, and exactly one send to the secondary sink when the primary
send resolves (whatever its HTTP status) but none when the primary send
rejects. -/
theorem one_primary_send_and_secondary_unless_primary_rejects
    (dateParse : String → Option Int) (self : Mission_Clocks)
    (outcomes : Nat → Sink → FetchOutcome) (now now₁ now₂ : Int) :
    (alarm dateParse self outcomes now now₁ now₂).emits.map EmitCall.trigger =
        (storedTriggers self).filter (isDue dateParse now) ∧
    ∀ (i : Nat) (c : EmitCall),
      (alarm dateParse self outcomes now now₁ now₂).emits[i]? = some c →
      c.result = emitTrigger (storedMissionId self) c.trigger (outcomes i) ∧
      sendsTo .missionControlApi c.result = 1 ∧
      sendsTo .missionComms c.result =
        (match outcomes i .missionControlApi with
         | .rejected _ => 0
         | .resolved _ => 1) := by
  refine ⟨by rw [alarm_emits, emitLoop_triggers], ?_⟩
  intro i c hc
  rw [alarm_emits] at hc
  obtain ⟨_, hres⟩ := emitLoop_getElem _ outcomes _ 0 i c hc
  rw [Nat.zero_add] at hres
  refine ⟨hres, ?_, ?_⟩
  · rw [hres]
    unfold sendsTo
    rw [emitTrigger_calls]
    cases outcomes i .missionControlApi <;> simp
  · rw [hres]
    unfold sendsTo
    rw [emitTrigger_calls]
    cases outcomes i .missionControlApi <;> simp

/-- C4, as amended, at the wakeup of Scenario B when the primary send rejects:
the T48 lock is handed to `emitTrigger` once, which attempts one send to the
primary sink and none to the secondary sink. -/
theorem one_primary_send_and_secondary_unless_primary_rejects_witness :
    (alarm exampleDates (init exampleDates Mission_Clocks.fresh exampleBody 0 0).1
      (fun _ => primaryRejects) 5000 5000 5000).emits[0]? = some rejectedT48Emit ∧
    sendsTo .missionControlApi rejectedT48Emit.result = 1 ∧
    sendsTo .missionComms rejectedT48Emit.result = 0 :=
  have h := (one_primary_send_and_secondary_unless_primary_rejects exampleDates
    (init exampleDates Mission_Clocks.fresh exampleBody 0 0).1
    (fun _ => primaryRejects) 5000 5000 5000).2 0 rejectedT48Emit (by decide)
  ⟨by decide, h.2.1, h.2.2⟩

/-- C4 fails as stated. When the primary send rejects, `emitTrigger` attempts
the primary send only: the secondary sink receives no send. -/
theorem secondary_send_skipped_when_primary_rejects :
    (emitTrigger (.str "M1") { type := "T48_LOCK", time := .num 5000, meta := .undefined }
        primaryRejects).calls =
      [{ sink := .missionControlApi, body := .event (.str "M1") "T48_LOCK" (.obj .nil) }] ∧
    sendsTo .missionComms
      (emitTrigger (.str "M1") { type := "T48_LOCK", time := .num 5000, meta := .undefined }
        primaryRejects) = 0 := by
  decide

/-! ## Containment of delivery failures -/

/-- C5. Delivery failures are contained: whatever the outcome of the sends,
`emitTrigger` lets no exception escape, the alarm handler lets none escape
and invokes `emitTrigger` for the same due triggers, and the instance it
leaves (persisted missionId, persisted collection, armed wakeup) is the one
it leaves when every send succeeds. -/
theorem delivery_failures_are_contained (dateParse : String → Option Int)
    (self : Mission_Clocks) (outcomes : Nat → Sink → FetchOutcome) (now now₁ now₂ : Int) :
    (∀ (missionId : JsVal) (trigger : Trigger) (outcome : Sink → FetchOutcome),
      (emitTrigger missionId trigger outcome).raised = none) ∧
    (alarm dateParse self outcomes now now₁ now₂).raised = none ∧
    (alarm dateParse self outcomes now now₁ now₂).self =
      (alarm dateParse self allResolve now now₁ now₂).self ∧
    (alarm dateParse self outcomes now now₁ now₂).emits.map EmitCall.trigger =
      (alarm dateParse self allResolve now now₁ now₂).emits.map EmitCall.trigger ∧
    (alarm dateParse self outcomes now now₁ now₂).emits.map EmitCall.trigger =
      (storedTriggers self).filter (isDue dateParse now) := by
  refine ⟨emitTrigger_raised, alarm_raised dateParse self outcomes now now₁ now₂, ?_, ?_, ?_⟩
  · rw [alarm_self, alarm_self]
  · rw [alarm_emits, alarm_emits, emitLoop_triggers, emitLoop_triggers]
  · rw [alarm_emits, emitLoop_triggers]

/-! ## Validation of requests -/

theorem init_accepted (D : String → Option Int) (self : Mission_Clocks) (body : InitBody)
    (now₁ now₂ : Int) (h : truthy body.missionId = true) :
    (init D self body now₁ now₂).2 = initializedResponse ∧
    (init D self body now₁ now₂).1.storage.missionId = some body.missionId ∧
    (init D self body now₁ now₂).1.storage.others = self.storage.others := by
  unfold init
  simp only [h, Bool.not_true, Bool.false_eq_true, if_false]
  refine ⟨rfl, ?_, ?_⟩
  · show (scheduleNextAlarm D _ now₁ now₂).storage.missionId = _
    rw [scheduleNextAlarm_storage]
    rfl
  · show (scheduleNextAlarm D _ now₁ now₂).storage.others = _
    rw [scheduleNextAlarm_storage]
    rfl

theorem registerDocument_accepted (D : String → Option Int) (self : Mission_Clocks)
    (body : RegisterBody) (now₁ now₂ : Int) :
    (registerDocument D self body now₁ now₂).2 = registeredResponse ∧
    (registerDocument D self body now₁ now₂).1.storage.missionId = self.storage.missionId ∧
    (registerDocument D self body now₁ now₂).1.storage.others = self.storage.others := by
  unfold registerDocument
  refine ⟨rfl, ?_, ?_⟩
  · show (scheduleNextAlarm D _ now₁ now₂).storage.missionId = _
    rw [scheduleNextAlarm_storage]
    rfl
  · show (scheduleNextAlarm D _ now₁ now₂).storage.others = _
    rw [scheduleNextAlarm_storage]
    rfl

/-- C6, as amended. Trigger times are not validated: an initialize request
with a non-empty missionId that supplies a time which does not parse is
accepted with status `initialized`, persisting its missionId and every
trigger built from it, the unparseable one included; a registerDocument
request whose expiry does not parse is accepted with status `registered`,
persisting the prior triggers and the new one with its unparseable time. -/
theorem unparseable_times_are_accepted_and_stored (dateParse : String → Option Int)
    (self : Mission_Clocks) (now₁ now₂ : Int) :
    (∀ body : InitBody, truthy body.missionId = true →
      (∃ t ∈ buildTriggers body, parseable dateParse t = false) →
      (init dateParse self body now₁ now₂).2 = initializedResponse ∧
      (init dateParse self body now₁ now₂).1.storage.missionId = some body.missionId ∧
      (storedTriggers (init dateParse self body now₁ now₂).1).Perm (buildTriggers body) ∧
      ∃ t ∈ storedTriggers (init dateParse self body now₁ now₂).1,
        parseable dateParse t = false) ∧
    (∀ body : RegisterBody, getTime dateParse body.expiry = none →
      (registerDocument dateParse self body now₁ now₂).2 = registeredResponse ∧
      (storedTriggers (registerDocument dateParse self body now₁ now₂).1).Perm
        (storedTriggers self ++ [documentTrigger body]) ∧
      documentTrigger body ∈ storedTriggers (registerDocument dateParse self body now₁ now₂).1 ∧
      parseable dateParse (documentTrigger body) = false) := by
  refine ⟨?_, ?_⟩
  · intro body hm ⟨t, ht, hbad⟩
    have hacc := init_accepted dateParse self body now₁ now₂ hm
    rw [init_storedTriggers dateParse self body now₁ now₂ hm]
    exact ⟨hacc.1, hacc.2.1, perm_sortTriggers _ _, t, mem_sortTriggers.mpr ht, hbad⟩
  · intro body hbad
    have hacc := registerDocument_accepted dateParse self body now₁ now₂
    rw [registerDocument_storedTriggers]
    refine ⟨hacc.1, perm_sortTriggers _ _, ?_, ?_⟩
    · exact mem_sortTriggers.mpr (List.mem_append_right _ (List.mem_singleton_self _))
    · simp [parseable, documentTrigger, hbad]

/-- C6, as amended, at a request with an undated T72 lock and at a document
whose expiry is no date. -/
theorem unparseable_times_are_accepted_and_stored_witness :
    (init exampleDates Mission_Clocks.fresh undatedBody 0 0).2 = initializedResponse ∧
    (registerDocument exampleDates Mission_Clocks.fresh
      { documentId := .str "D1", expiry := .str "next week" } 0 0).2 = registeredResponse ∧
    (∃ t ∈ storedTriggers (init exampleDates Mission_Clocks.fresh undatedBody 0 0).1,
      parseable exampleDates t = false) :=
  have h := unparseable_times_are_accepted_and_stored exampleDates Mission_Clocks.fresh 0 0
  have h1 := h.1 undatedBody (by decide) (by decide)
  have h2 := h.2 { documentId := .str "D1", expiry := .str "next week" } (by decide)
  ⟨h1.1, h2.1, h1.2.2.2⟩

/-- C6 fails as stated. An initialize request whose T72 lock time is the
string `to be confirmed`, which is no date, is answered with status
`initialized`, and storage changes from empty to the new missionId and a
collection holding the undated trigger. -/
theorem unparseable_lock_time_is_not_rejected :
    getTime exampleDates undatedBody.t72LockTime = none ∧
    Mission_Clocks.fresh.storage = Storage.empty ∧
    init exampleDates Mission_Clocks.fresh undatedBody 0 0 =
      ({ storage :=
          { missionId := some (.str "M1"),
            triggers := some
              [{ type := "T72_LOCK", time := .str "to be confirmed", meta := .undefined },
               { type := "T48_LOCK", time := .num 5000, meta := .undefined }],
            others := [] },
         armed := some 1000,
         initialized := true },
       initializedResponse) := by
  decide

/-- C7. An initialize request whose missionId is absent, empty or otherwise
falsy is answered with status 400 and body `missionId required`, which is not
the `initialized` response, and leaves the instance exactly as it was:
persisted missionId, persisted collection and armed wakeup are unchanged. -/
theorem init_without_missionId_is_rejected_without_effect (dateParse : String → Option Int)
    (self : Mission_Clocks) (body : InitBody) (now₁ now₂ : Int)
    (h : body.missionId = .undefined ∨ body.missionId = .str "" ∨
      truthy body.missionId = false) :
    (init dateParse self body now₁ now₂).2 =
      { status := 400, body := .text "missionId required" } ∧
    (init dateParse self body now₁ now₂).2 ≠ initializedResponse ∧
    (init dateParse self body now₁ now₂).1 = self ∧
    (init dateParse self body now₁ now₂).1.storage.missionId = self.storage.missionId ∧
    storedTriggers (init dateParse self body now₁ now₂).1 = storedTriggers self ∧
    (init dateParse self body now₁ now₂).1.armed = self.armed := by
  have hf : truthy body.missionId = false := by
    rcases h with h | h | h
    · rw [h]; rfl
    · rw [h]; rfl
    · exact h
  rw [init_rejected dateParse self body now₁ now₂ hf]
  exact ⟨rfl, by simp [initializedResponse], rfl, rfl, rfl, rfl⟩

/-- C7 on the instance left by the example run, for a request with an empty
missionId and one with none. -/
theorem init_without_missionId_is_rejected_without_effect_witness :
    (init exampleDates (run exampleDates Mission_Clocks.fresh exampleOps)
      { exampleBody with missionId := .str "" } 9000 9000).1 =
        run exampleDates Mission_Clocks.fresh exampleOps ∧
    (init exampleDates (run exampleDates Mission_Clocks.fresh exampleOps)
      { exampleBody with missionId := .undefined } 9000 9000).2.status = 400 :=
  ⟨(init_without_missionId_is_rejected_without_effect exampleDates
      (run exampleDates Mission_Clocks.fresh exampleOps)
      { exampleBody with missionId := .str "" } 9000 9000 (Or.inr (Or.inl rfl))).2.2.1,
   by rw [(init_without_missionId_is_rejected_without_effect exampleDates
      (run exampleDates Mission_Clocks.fresh exampleOps)
      { exampleBody with missionId := .undefined } 9000 9000 (Or.inl rfl)).1]⟩

/-! ## Initialize and register -/

theorem lockTimeUsed_eq_truthy (v : JsVal) : lockTimeUsed v = truthy v := by
  cases v <;> simp [lockTimeUsed, lockTimeGiven, truthy]

theorem buildTriggers_eq_usedTriggers (body : InitBody) :
    buildTriggers body = usedTriggers body := by
  unfold buildTriggers usedTriggers expectedEntryTriggers
  simp only [lockTimeUsed_eq_truthy, List.append_assoc]

theorem length_usedTriggers (body : InitBody) :
    (usedTriggers body).length =
      usedLockTimes body + body.slaDeadlines.length + body.documentExpirations.length := by
  unfold usedTriggers usedLockTimes expectedEntryTriggers
  cases lockTimeUsed body.t72LockTime <;> cases lockTimeUsed body.t48LockTime <;>
    simp <;> omega

/-- C8, as amended. For every initialize request with a non-empty missionId
whose used times all parse, the persisted collection is a permutation, in
ascending order of time, of the list the specification describes with a lock
trigger only for a lock time that is given and truthy (one `T72_LOCK`, one
`T48_LOCK`, one `SLA_BREACH` per SLA entry, one `DOCUMENT_EXPIRED` per document
entry); its length is the number of given truthy lock times plus the numbers
of SLA and document entries; the persisted missionId is the request's; the
response is status `initialized`. When each given lock time is truthy, that
list is the specification's list and that number the number of given lock
times. -/
theorem init_persists_sorted_triggers_of_truthy_lock_times
    (dateParse : String → Option Int)
    (self : Mission_Clocks) (body : InitBody) (now₁ now₂ : Int)
    (hm : truthy body.missionId = true)
    (hp : ∀ t ∈ usedTriggers body, parseable dateParse t = true) :
    (storedTriggers (init dateParse self body now₁ now₂).1).Perm (usedTriggers body) ∧
    SortedByTime dateParse (storedTriggers (init dateParse self body now₁ now₂).1) ∧
    (storedTriggers (init dateParse self body now₁ now₂).1).length =
      usedLockTimes body + body.slaDeadlines.length + body.documentExpirations.length ∧
    (init dateParse self body now₁ now₂).1.storage.triggers =
      some (storedTriggers (init dateParse self body now₁ now₂).1) ∧
    (init dateParse self body now₁ now₂).1.storage.missionId = some body.missionId ∧
    (init dateParse self body now₁ now₂).2 = initializedResponse ∧
    (lockTimeUsed body.t72LockTime = lockTimeGiven body.t72LockTime →
      lockTimeUsed body.t48LockTime = lockTimeGiven body.t48LockTime →
      usedTriggers body = expectedTriggers body ∧
      usedLockTimes body = givenLockTimes body) := by
  have hacc := init_accepted dateParse self body now₁ now₂ hm
  have hsome : (init dateParse self body now₁ now₂).1.storage.triggers =
      some (storedTriggers (init dateParse self body now₁ now₂).1) := by
    unfold init
    simp only [hm, Bool.not_true, Bool.false_eq_true, if_false]
    show (scheduleNextAlarm dateParse _ now₁ now₂).storage.triggers =
      some (storedTriggers (scheduleNextAlarm dateParse _ now₁ now₂))
    rw [storedTriggers_scheduleNextAlarm, scheduleNextAlarm_storage]
    rfl
  refine ⟨?_, ?_, ?_, hsome, hacc.2.1, hacc.1, ?_⟩
  · rw [init_storedTriggers dateParse self body now₁ now₂ hm,
      buildTriggers_eq_usedTriggers]
    exact perm_sortTriggers _ _
  · rw [init_storedTriggers dateParse self body now₁ now₂ hm,
      buildTriggers_eq_usedTriggers]
    exact sorted_sortTriggers _ hp
  · rw [init_storedTriggers dateParse self body now₁ now₂ hm,
      buildTriggers_eq_usedTriggers, (perm_sortTriggers _ _).length_eq,
      length_usedTriggers]
  · intro h72 h48
    unfold usedTriggers expectedTriggers usedLockTimes givenLockTimes
    rw [h72, h48]
    exact ⟨rfl, rfl⟩

/-- C8, as amended, on the example request, whose two lock times are given
and truthy and which has one SLA deadline: three triggers are persisted,
earliest first. -/
theorem init_persists_sorted_triggers_of_truthy_lock_times_witness :
    truthy exampleBody.missionId = true ∧
    (∀ t ∈ usedTriggers exampleBody, parseable exampleDates t = true) ∧
    (storedTriggers (init exampleDates Mission_Clocks.fresh exampleBody 0 0).1).length = 3 ∧
    usedTriggers exampleBody = expectedTriggers exampleBody ∧
    storedTriggers (init exampleDates Mission_Clocks.fresh exampleBody 0 0).1 =
      [{ type := "T48_LOCK", time := .num 5000, meta := .undefined },
       { type := "SLA_BREACH", time := .num 7000, meta := .str "gold" },
       { type := "T72_LOCK", time := .str "1970-01-01T00:00:10.000Z", meta := .undefined }] :=
  have h := init_persists_sorted_triggers_of_truthy_lock_times exampleDates
    Mission_Clocks.fresh exampleBody 0 0 (by decide) (by decide)
  ⟨by decide, by decide, h.2.2.1.trans (by decide),
   (h.2.2.2.2.2.2 (by decide) (by decide)).1, by decide⟩

/-- C8 fails as stated. An initialize request with a non-empty missionId, the
T72 lock time 0, which is given and parses to the timestamp 0, and a T48 lock
at 5000 ms is answered with status `initialized` and persists the T48 lock
only: the guard `if (t72LockTime)` skips the value 0, so no `T72_LOCK` is
stored, the persisted list is no permutation of the specification's list, and
its length is 1 while two lock times are given. -/
theorem init_skips_given_lock_time_zero :
    truthy epochLockBody.missionId = true ∧
    lockTimeGiven epochLockBody.t72LockTime = true ∧
    getTime exampleDates epochLockBody.t72LockTime = some 0 ∧
    (∀ t ∈ expectedTriggers epochLockBody, parseable exampleDates t = true) ∧
    (init exampleDates Mission_Clocks.fresh epochLockBody 0 0).2 = initializedResponse ∧
    storedTriggers (init exampleDates Mission_Clocks.fresh epochLockBody 0 0).1 =
      [{ type := "T48_LOCK", time := .num 5000, meta := .undefined }] ∧
    ¬ (storedTriggers (init exampleDates Mission_Clocks.fresh epochLockBody 0 0).1).Perm
      (expectedTriggers epochLockBody) ∧
    (storedTriggers (init exampleDates Mission_Clocks.fresh epochLockBody 0 0).1).length = 1 ∧
    givenLockTimes epochLockBody + epochLockBody.slaDeadlines.length +
      epochLockBody.documentExpirations.length = 2 := by
  refine ⟨by decide, by decide, by decide, by decide, by decide, by decide, ?_,
    by decide, by decide⟩
  intro h
  exact absurd h.length_eq (by decide)

/-- C9, as amended. For every prior persisted collection, absent included,
every documentId and every parseable expiry, registerDocument leaves persisted
a permutation of the prior collection plus the trigger `DOCUMENT_EXPIRED` at
the expiry with meta `{ documentId }`: the length grows by one, every prior
trigger is retained, the new trigger occurs once more than before (no
de-duplication), the persisted missionId is unchanged and the response is
status `registered`; and when the times of the prior collection all parse,
the persisted collection is in ascending order of time. -/
theorem registerDocument_adds_one_trigger (dateParse : String → Option Int)
    (self : Mission_Clocks) (body : RegisterBody) (now₁ now₂ : Int)
    (he : (getTime dateParse body.expiry).isSome = true) :
    documentTrigger body =
      { type := "DOCUMENT_EXPIRED", time := body.expiry,
        meta := .obj (.cons "documentId" body.documentId .nil) } ∧
    (storedTriggers (registerDocument dateParse self body now₁ now₂).1).Perm
      (storedTriggers self ++ [documentTrigger body]) ∧
    (storedTriggers (registerDocument dateParse self body now₁ now₂).1).length =
      (storedTriggers self).length + 1 ∧
    (∀ t ∈ storedTriggers self,
      t ∈ storedTriggers (registerDocument dateParse self body now₁ now₂).1) ∧
    (storedTriggers (registerDocument dateParse self body now₁ now₂).1).count
        (documentTrigger body) = (storedTriggers self).count (documentTrigger body) + 1 ∧
    (registerDocument dateParse self body now₁ now₂).1.storage.missionId =
      self.storage.missionId ∧
    (registerDocument dateParse self body now₁ now₂).2 = registeredResponse ∧
    ((∀ t ∈ storedTriggers self, parseable dateParse t = true) →
      SortedByTime dateParse (storedTriggers (registerDocument dateParse self body now₁ now₂).1))
    := by
  have hacc := registerDocument_accepted dateParse self body now₁ now₂
  have hst : storedTriggers (registerDocument dateParse self body now₁ now₂).1 =
      sortTriggers dateParse (storedTriggers self ++ [documentTrigger body]) :=
    registerDocument_storedTriggers dateParse self body now₁ now₂
  have hperm := perm_sortTriggers dateParse (storedTriggers self ++ [documentTrigger body])
  rw [hst]
  refine ⟨rfl, hperm, ?_, ?_, ?_, hacc.2.1, hacc.1, ?_⟩
  · rw [hperm.length_eq, List.length_append, List.length_singleton]
  · intro t ht
    exact mem_sortTriggers.mpr (List.mem_append_left _ ht)
  · rw [hperm.count_eq, List.count_append, List.count_singleton_self]
  · intro hprior
    refine sorted_sortTriggers _ ?_
    intro t ht
    rcases List.mem_append.mp ht with ht | ht
    · exact hprior t ht
    · rw [List.mem_singleton.mp ht]
      exact he

/-- C9, as amended, on Scenario C: registering a document due at 2000 ms on
the collection of Scenario A puts its trigger first. -/
theorem registerDocument_adds_one_trigger_witness :
    (getTime exampleDates (JsVal.num 2000)).isSome = true ∧
    (storedTriggers (registerDocument exampleDates
      (init exampleDates Mission_Clocks.fresh exampleBody 0 0).1
      { documentId := .str "D1", expiry := .num 2000 } 1 1).1).length = 4 ∧
    storedTriggers (registerDocument exampleDates
      (init exampleDates Mission_Clocks.fresh exampleBody 0 0).1
      { documentId := .str "D1", expiry := .num 2000 } 1 1).1 =
      [{ type := "DOCUMENT_EXPIRED", time := .num 2000,
         meta := .obj (.cons "documentId" (.str "D1") .nil) },
       { type := "T48_LOCK", time := .num 5000, meta := .undefined },
       { type := "SLA_BREACH", time := .num 7000, meta := .str "gold" },
       { type := "T72_LOCK", time := .str "1970-01-01T00:00:10.000Z", meta := .undefined }] :=
  ⟨by decide,
   (registerDocument_adds_one_trigger exampleDates
      (init exampleDates Mission_Clocks.fresh exampleBody 0 0).1
      { documentId := .str "D1", expiry := .num 2000 } 1 1 (by decide)).2.2.1.trans (by decide),
   by decide⟩

/-- C9 fails as stated. The collection persisted by initializing with a T72
lock at 10000 ms and an SLA deadline whose time is no date holds both;
registering a document with expiry 5000 ms persists the three triggers with
the T72 lock at 10000 ms ahead of the document at 5000 ms, which is not in
ascending order of time. -/
theorem registerDocument_after_unparseable_time_is_unsorted :
    storedTriggers (init exampleDates Mission_Clocks.fresh undatedSlaBody 0 0).1 =
      [{ type := "T72_LOCK", time := .num 10000, meta := .undefined },
       { type := "SLA_BREACH", time := .str "to be confirmed", meta := .undefined }] ∧
    storedTriggers (registerDocument exampleDates
      (init exampleDates Mission_Clocks.fresh undatedSlaBody 0 0).1
      { documentId := .str "D1", expiry := .num 5000 } 1 1).1 =
      [{ type := "T72_LOCK", time := .num 10000, meta := .undefined },
       { type := "SLA_BREACH", time := .str "to be confirmed", meta := .undefined },
       { type := "DOCUMENT_EXPIRED", time := .num 5000,
         meta := .obj (.cons "documentId" (.str "D1") .nil) }] ∧
    ¬ SortedByTime exampleDates (storedTriggers (registerDocument exampleDates
      (init exampleDates Mission_Clocks.fresh undatedSlaBody 0 0).1
      { documentId := .str "D1", expiry := .num 5000 } 1 1).1) := by
  decide

/-! ## Wakeups with nothing due -/

/-- C10. Idempotent no-op wakeup: when the persisted collection is absent or
empty, or no stored trigger has time at most `now`, the alarm handler invokes
`emitTrigger` for no trigger, so attempts no send to either sink, lets no
exception escape, and leaves storage (missionId, collection, every other key)
exactly as it was; only the armed wakeup may change. -/
theorem alarm_with_nothing_due_is_a_no_op (dateParse : String → Option Int)
    (self : Mission_Clocks) (outcomes : Nat → Sink → FetchOutcome) (now now₁ now₂ : Int)
    (h : self.storage.triggers = none ∨ storedTriggers self = [] ∨
      ∀ t ∈ storedTriggers self, isDue dateParse now t = false) :
    (alarm dateParse self outcomes now now₁ now₂).emits = [] ∧
    (∀ sink : Sink,
      ((alarm dateParse self outcomes now now₁ now₂).emits.map
        (fun call => sendsTo sink call.result)).sum = 0) ∧
    (alarm dateParse self outcomes now now₁ now₂).raised = none ∧
    (alarm dateParse self outcomes now now₁ now₂).self.storage = self.storage ∧
    (alarm dateParse self outcomes now now₁ now₂).self.storage.missionId =
      self.storage.missionId ∧
    (alarm dateParse self outcomes now now₁ now₂).self.storage.triggers =
      self.storage.triggers := by
  have hdue : (storedTriggers self).filter (isDue dateParse now) = [] := by
    rcases h with h | h | h
    · have : storedTriggers self = [] := by
        unfold storedTriggers
        rw [h]
      rw [this]
      rfl
    · rw [h]
      rfl
    · rw [List.filter_eq_nil_iff]
      intro t ht
      rw [h t ht]
      exact Bool.false_ne_true
  have hemits : (alarm dateParse self outcomes now now₁ now₂).emits = [] := by
    rw [alarm_emits, hdue]
    rfl
  have hstore : (alarm dateParse self outcomes now now₁ now₂).self.storage = self.storage := by
    rw [alarm_self]
    by_cases h0 : storedTriggers self = []
    · rw [if_pos h0]
    · rw [if_neg h0, if_pos hdue, scheduleNextAlarm_storage]
  refine ⟨hemits, ?_, alarm_raised dateParse self outcomes now now₁ now₂, hstore, ?_, ?_⟩
  · intro sink
    rw [hemits]
    rfl
  · rw [hstore]
  · rw [hstore]

/-- C10 on Scenario D and on an early wakeup: after cancelAll a stray wakeup
emits nothing and leaves storage empty; a wakeup at 4000 ms, before the
earliest trigger of Scenario A, emits nothing and leaves the collection as it
was. -/
theorem alarm_with_nothing_due_is_a_no_op_witness :
    (alarm exampleDates (cancelAll (init exampleDates Mission_Clocks.fresh exampleBody 0 0).1).1
      allResolve 5000 5000 5000).emits = [] ∧
    (alarm exampleDates (cancelAll (init exampleDates Mission_Clocks.fresh exampleBody 0 0).1).1
      allResolve 5000 5000 5000).self.storage = Storage.empty ∧
    (alarm exampleDates (init exampleDates Mission_Clocks.fresh exampleBody 0 0).1
      allResolve 4000 4000 4000).emits = [] ∧
    storedTriggers (alarm exampleDates (init exampleDates Mission_Clocks.fresh exampleBody 0 0).1
      allResolve 4000 4000 4000).self =
      [{ type := "T48_LOCK", time := .num 5000, meta := .undefined },
       { type := "SLA_BREACH", time := .num 7000, meta := .str "gold" },
       { type := "T72_LOCK", time := .str "1970-01-01T00:00:10.000Z", meta := .undefined }] :=
  have h1 := alarm_with_nothing_due_is_a_no_op exampleDates
    (cancelAll (init exampleDates Mission_Clocks.fresh exampleBody 0 0).1).1
    allResolve 5000 5000 5000 (Or.inl rfl)
  have h2 := alarm_with_nothing_due_is_a_no_op exampleDates
    (init exampleDates Mission_Clocks.fresh exampleBody 0 0).1
    allResolve 4000 4000 4000 (Or.inr (Or.inr (by decide)))
  ⟨h1.1, h1.2.2.2.1.trans rfl, h2.1, by decide⟩

/-! ## A pending trigger always has a wakeup -/

theorem scheduleNextAlarm_arms (D : String → Option Int) (self : Mission_Clocks)
    (now₁ now₂ : Int) (hne : storedTriggers self ≠ []) :
    ∃ a, (scheduleNextAlarm D self now₁ now₂).armed = some a ∧
      (now₁ < a ∨ a = now₂ + 1000) := by
  unfold scheduleNextAlarm
  cases hl : storedTriggers self with
  | nil => exact absurd hl hne
  | cons t rest =>
    dsimp only
    cases hx : getTime D t.time with
    | none => exact ⟨now₂ + 1000, rfl, Or.inr rfl⟩
    | some x =>
      dsimp only
      by_cases hgt : x > now₁
      · rw [if_pos hgt]
        exact ⟨x, rfl, Or.inl hgt⟩
      · rw [if_neg hgt]
        exact ⟨now₂ + 1000, rfl, Or.inr rfl⟩

theorem scheduleNextAlarm_of_empty (D : String → Option Int) (self : Mission_Clocks)
    (now₁ now₂ : Int) (h : storedTriggers self = []) :
    scheduleNextAlarm D self now₁ now₂ = self := by
  unfold scheduleNextAlarm
  rw [h]

theorem init_self (D : String → Option Int) (self : Mission_Clocks) (body : InitBody)
    (now₁ now₂ : Int) (h : truthy body.missionId = true) :
    (init D self body now₁ now₂).1 =
      { scheduleNextAlarm D
          (putTriggers (putMissionId self body.missionId)
            (sortTriggers D (buildTriggers body))) now₁ now₂ with initialized := true } := by
  unfold init
  simp only [h, Bool.not_true, Bool.false_eq_true, if_false]

theorem registerDocument_self (D : String → Option Int) (self : Mission_Clocks)
    (body : RegisterBody) (now₁ now₂ : Int) :
    (registerDocument D self body now₁ now₂).1 =
      scheduleNextAlarm D
        (putTriggers self (sortTriggers D (storedTriggers self ++ [documentTrigger body])))
        now₁ now₂ := rfl

/-- C11. Pending triggers are never left without a wakeup: after every
successful initialize, every registerDocument and every alarm invocation that
leaves a non-empty persisted collection, a wakeup is armed, at a time `a` that
is either after the clock reading `now₁` tested by `scheduleNextAlarm` or
exactly 1000 ms after its second clock reading `now₂`; so `a` is strictly
later than the instant of arming, and strictly later than `now` when both
readings are the one instant `now`. -/
theorem pending_triggers_have_a_future_wakeup (dateParse : String → Option Int)
    (self : Mission_Clocks) (op : Op) (now₁ now₂ : Int)
    (hop : (∃ body, op = .init body now₁ now₂ ∧ truthy body.missionId = true) ∨
      (∃ body, op = .registerDocument body now₁ now₂) ∨
      (∃ outcomes now, op = .alarm outcomes now now₁ now₂))
    (hne : storedTriggers (step dateParse self op) ≠ []) :
    ∃ a, (step dateParse self op).armed = some a ∧
      (now₁ < a ∨ a = now₂ + 1000) ∧
      (now₁ = now₂ → now₂ < a) := by
  have key : ∃ a, (step dateParse self op).armed = some a ∧
      (now₁ < a ∨ a = now₂ + 1000) := by
    rcases hop with ⟨body, rfl, hm⟩ | ⟨body, rfl⟩ | ⟨outcomes, now, rfl⟩
    · have hst := init_storedTriggers dateParse self body now₁ now₂ hm
      have hne' : sortTriggers dateParse (buildTriggers body) ≠ [] := by
        rw [← hst]
        exact hne
      obtain ⟨a, ha, hlt⟩ := scheduleNextAlarm_arms dateParse
        (putTriggers (putMissionId self body.missionId)
          (sortTriggers dateParse (buildTriggers body))) now₁ now₂ hne'
      refine ⟨a, ?_, hlt⟩
      show (init dateParse self body now₁ now₂).1.armed = some a
      rw [init_self dateParse self body now₁ now₂ hm]
      exact ha
    · exact scheduleNextAlarm_arms dateParse
        (putTriggers self
          (sortTriggers dateParse (storedTriggers self ++ [documentTrigger body])))
        now₁ now₂ (sortTriggers_ne_nil dateParse _ (by simp))
    · have hne' : storedTriggers (alarm dateParse self outcomes now now₁ now₂).self ≠ [] := hne
      show ∃ a, (alarm dateParse self outcomes now now₁ now₂).self.armed = some a ∧ _
      rw [alarm_self] at hne' ⊢
      by_cases h0 : storedTriggers self = []
      · rw [if_pos h0] at hne'
        exact absurd h0 hne'
      · rw [if_neg h0] at hne' ⊢
        by_cases h1 : (storedTriggers self).filter (isDue dateParse now) = []
        · rw [if_pos h1]
          exact scheduleNextAlarm_arms dateParse self now₁ now₂ h0
        · rw [if_neg h1] at hne' ⊢
          rw [storedTriggers_scheduleNextAlarm, storedTriggers_putTriggers] at hne'
          exact scheduleNextAlarm_arms dateParse _ now₁ now₂ hne'
  obtain ⟨a, ha, hlt⟩ := key
  refine ⟨a, ha, hlt, ?_⟩
  intro heq
  rcases hlt with h | h
  · omega
  · omega

/-- C11 on Scenario A handled late: initializing at 6500 ms, when the earliest
trigger at 5000 ms is already due, arms the wakeup at 7500 ms. -/
theorem pending_triggers_have_a_future_wakeup_witness :
    storedTriggers (step exampleDates Mission_Clocks.fresh (.init exampleBody 6500 6500)) ≠ [] ∧
    (step exampleDates Mission_Clocks.fresh (.init exampleBody 6500 6500)).armed = some 7500 ∧
    (6500 : Int) < 7500 := by
  have hne : storedTriggers
      (step exampleDates Mission_Clocks.fresh (.init exampleBody 6500 6500)) ≠ [] := by decide
  obtain ⟨a, ha, _, hlt⟩ := pending_triggers_have_a_future_wakeup exampleDates
    Mission_Clocks.fresh (.init exampleBody 6500 6500) 6500 6500
    (Or.inl ⟨exampleBody, rfl, by decide⟩) hne
  have h7500 : (step exampleDates Mission_Clocks.fresh (.init exampleBody 6500 6500)).armed =
      some 7500 := by decide
  have : a = 7500 := Option.some.inj (ha.symm.trans h7500)
  exact ⟨hne, h7500, this ▸ hlt rfl⟩

/-! ## The wakeup of an empty collection -/

/-- C12, as amended. An operation that leaves the collection empty arms no
wakeup: whenever an initialize, registerDocument, cancelAll or alarm
invocation leaves the persisted collection empty or absent and no wakeup was
armed before it, none is armed after it. An initialize that leaves the
collection empty does not disarm either: the wakeup armed before it, if any,
is still armed after it. -/
theorem empty_collection_arms_no_wakeup (dateParse : String → Option Int)
    (self : Mission_Clocks) (op : Op)
    (hempty : storedTriggers (step dateParse self op) = []) :
    (self.armed = none → (step dateParse self op).armed = none) ∧
    (∀ (body : InitBody) (now₁ now₂ : Int), op = .init body now₁ now₂ →
      (step dateParse self op).armed = self.armed) := by
  have key : (step dateParse self op).armed = self.armed := by
    cases op with
    | init body now₁ now₂ =>
      show (init dateParse self body now₁ now₂).1.armed = self.armed
      cases hm : truthy body.missionId with
      | false => rw [init_rejected dateParse self body now₁ now₂ hm]
      | true =>
        have hst := init_storedTriggers dateParse self body now₁ now₂ hm
        have h0 : sortTriggers dateParse (buildTriggers body) = [] := by
          rw [← hst]
          exact hempty
        rw [init_self dateParse self body now₁ now₂ hm,
          scheduleNextAlarm_of_empty dateParse
            (putTriggers (putMissionId self body.missionId)
              (sortTriggers dateParse (buildTriggers body))) now₁ now₂ h0]
        rfl
    | registerDocument body now₁ now₂ =>
      exfalso
      have hst := registerDocument_storedTriggers dateParse self body now₁ now₂
      have h0 : storedTriggers (registerDocument dateParse self body now₁ now₂).1 = [] := hempty
      rw [hst] at h0
      exact sortTriggers_ne_nil dateParse _ (by simp) h0
    | cancelAll => rfl
    | alarm outcomes now now₁ now₂ =>
      have h0 : storedTriggers (alarm dateParse self outcomes now now₁ now₂).self = [] := hempty
      show (alarm dateParse self outcomes now now₁ now₂).self.armed = self.armed
      rw [alarm_self] at h0 ⊢
      by_cases hs : storedTriggers self = []
      · rw [if_pos hs]
      · rw [if_neg hs] at h0 ⊢
        by_cases hd : (storedTriggers self).filter (isDue dateParse now) = []
        · rw [if_pos hd, storedTriggers_scheduleNextAlarm] at h0
          exact absurd h0 hs
        · rw [if_neg hd] at h0 ⊢
          rw [storedTriggers_scheduleNextAlarm, storedTriggers_putTriggers] at h0
          rw [scheduleNextAlarm_of_empty dateParse
            (putTriggers self ((storedTriggers self).filter (isPending dateParse now)))
            now₁ now₂ h0]
          rfl
  exact ⟨fun h => key.trans h, fun _ _ _ _ => key⟩

/-- C12, as amended, on an initialize without triggers at 1000 ms that
follows Scenario A: the collection is empty and the wakeup armed at 5000 ms
is still armed. -/
theorem empty_collection_arms_no_wakeup_witness :
    storedTriggers (step exampleDates
      (init exampleDates Mission_Clocks.fresh exampleBody 0 0).1
      (.init emptyBody 1000 1000)) = [] ∧
    (init exampleDates Mission_Clocks.fresh exampleBody 0 0).1.armed = some 5000 ∧
    (step exampleDates
      (init exampleDates Mission_Clocks.fresh exampleBody 0 0).1
      (.init emptyBody 1000 1000)).armed = some 5000 :=
  ⟨by decide, by decide,
   ((empty_collection_arms_no_wakeup exampleDates
      (init exampleDates Mission_Clocks.fresh exampleBody 0 0).1
      (.init emptyBody 1000 1000) (by decide)).2 emptyBody 1000 1000 rfl).trans (by decide)⟩

/-- C12 fails as stated. From a fresh instance, initializing at 0 ms arms the
wakeup at 5000 ms; a second initialize at 1000 ms that supplies no trigger
persists the empty collection and makes no `setAlarm` call, so the wakeup at
5000 ms is still armed over an empty collection. -/
theorem wakeup_stays_armed_over_empty_collection :
    (run exampleDates Mission_Clocks.fresh [.init exampleBody 0 0]).armed = some 5000 ∧
    (run exampleDates Mission_Clocks.fresh
      [.init exampleBody 0 0, .init emptyBody 1000 1000]).storage.triggers = some [] ∧
    storedTriggers (run exampleDates Mission_Clocks.fresh
      [.init exampleBody 0 0, .init emptyBody 1000 1000]) = [] ∧
    (run exampleDates Mission_Clocks.fresh
      [.init exampleBody 0 0, .init emptyBody 1000 1000]).armed = some 5000 := by
  decide

/-! ## What scheduleNextAlarm arms -/

/-- C13. On a non-empty persisted collection whose head has time `t`,
`scheduleNextAlarm` arms the wakeup at exactly `t` when `t` is after the clock
reading `now₁` it tests, and at exactly its second clock reading `now₂` plus
1000 ms when `t` is not after `now₁`; with both readings the one instant `now`
that is `t` if `t > now` and `now + 1000` if `t <= now`. In both cases storage,
the persisted collection included, is unchanged, and the method makes no
`fetch` call: it yields the instance only. -/
theorem scheduleNextAlarm_arms_head_or_one_second_ahead (dateParse : String → Option Int)
    (self : Mission_Clocks) (head : Trigger) (rest : List Trigger) (t now₁ now₂ : Int)
    (hstored : storedTriggers self = head :: rest)
    (htime : getTime dateParse head.time = some t) :
    (t > now₁ → (scheduleNextAlarm dateParse self now₁ now₂).armed = some t) ∧
    (t ≤ now₁ → (scheduleNextAlarm dateParse self now₁ now₂).armed = some (now₂ + 1000)) ∧
    (∀ now : Int,
      (t > now → (scheduleNextAlarm dateParse self now now).armed = some t) ∧
      (t ≤ now → (scheduleNextAlarm dateParse self now now).armed = some (now + 1000))) ∧
    (scheduleNextAlarm dateParse self now₁ now₂).storage = self.storage ∧
    storedTriggers (scheduleNextAlarm dateParse self now₁ now₂) = storedTriggers self := by
  have arm : ∀ n₁ n₂ : Int,
      (t > n₁ → (scheduleNextAlarm dateParse self n₁ n₂).armed = some t) ∧
      (t ≤ n₁ → (scheduleNextAlarm dateParse self n₁ n₂).armed = some (n₂ + 1000)) := by
    intro n₁ n₂
    unfold scheduleNextAlarm
    rw [hstored]
    dsimp only
    rw [htime]
    dsimp only
    constructor
    · intro h
      rw [if_pos h]
      rfl
    · intro h
      rw [if_neg (Int.not_lt.mpr h)]
      rfl
  exact ⟨(arm now₁ now₂).1, (arm now₁ now₂).2, fun now => arm now now,
    scheduleNextAlarm_storage dateParse self now₁ now₂,
    storedTriggers_scheduleNextAlarm dateParse self now₁ now₂⟩

/-- C13 on the collection of Scenario A, whose head is the T48 lock at
5000 ms: at 4000 ms the wakeup is armed at 5000 ms, at 5000 ms it is armed at
6000 ms. -/
theorem scheduleNextAlarm_arms_head_or_one_second_ahead_witness :
    storedTriggers (init exampleDates Mission_Clocks.fresh exampleBody 0 0).1 =
      { type := "T48_LOCK", time := .num 5000, meta := .undefined } ::
      [{ type := "SLA_BREACH", time := .num 7000, meta := .str "gold" },
       { type := "T72_LOCK", time := .str "1970-01-01T00:00:10.000Z", meta := .undefined }] ∧
    (scheduleNextAlarm exampleDates
      (init exampleDates Mission_Clocks.fresh exampleBody 0 0).1 4000 4000).armed = some 5000 ∧
    (scheduleNextAlarm exampleDates
      (init exampleDates Mission_Clocks.fresh exampleBody 0 0).1 5000 5000).armed = some 6000 :=
  have h := scheduleNextAlarm_arms_head_or_one_second_ahead exampleDates
    (init exampleDates Mission_Clocks.fresh exampleBody 0 0).1
    { type := "T48_LOCK", time := .num 5000, meta := .undefined }
    [{ type := "SLA_BREACH", time := .num 7000, meta := .str "gold" },
     { type := "T72_LOCK", time := .str "1970-01-01T00:00:10.000Z", meta := .undefined }]
    5000 4000 4000 (by decide) (by decide)
  ⟨by decide, h.1 (by decide), (h.2.2.1 5000).2 (by decide)⟩

/-! ## Firing order -/

/-- C14. Firing order: in every state reached from empty storage by
operations whose supplied trigger times all parse, and for every instant
`now`, the triggers the alarm handler hands to `emitTrigger` are in ascending
order of time: each is emitted before every trigger of equal or later time
that is emitted after it. -/
theorem emitted_triggers_ascend (dateParse : String → Option Int)
    (self : Mission_Clocks) (ops : List Op) (outcomes : Nat → Sink → FetchOutcome)
    (now now₁ now₂ : Int)
    (hempty : self.storage = Storage.empty)
    (hops : ∀ op ∈ ops, op.parseable dateParse = true) :
    SortedByTime dateParse
      ((alarm dateParse (run dateParse self ops) outcomes now now₁ now₂).emits.map
        EmitCall.trigger) := by
  have hwt := wellTimed_run dateParse ops self hops (wellTimed_of_empty dateParse self hempty)
  rw [alarm_emits, emitLoop_triggers]
  exact List.Pairwise.filter _ hwt.2

/-- C14 on Scenario E: an SLA deadline and a document expiry share the time
5000 ms, a T48 lock is due at 3000 ms; the wakeup at 5000 ms emits the lock
first, then the two others. -/
theorem emitted_triggers_ascend_witness :
    Mission_Clocks.fresh.storage = Storage.empty ∧
    (∀ op ∈ [Op.init tiedBody 0 0], op.parseable exampleDates = true) ∧
    SortedByTime exampleDates
      ((alarm exampleDates (run exampleDates Mission_Clocks.fresh [Op.init tiedBody 0 0])
        allResolve 5000 5000 5000).emits.map EmitCall.trigger) ∧
    (alarm exampleDates (run exampleDates Mission_Clocks.fresh [Op.init tiedBody 0 0])
        allResolve 5000 5000 5000).emits.map EmitCall.trigger =
      [{ type := "T48_LOCK", time := .num 3000, meta := .undefined },
       { type := "SLA_BREACH", time := .str "1970-01-01T00:00:05.000Z", meta := .undefined },
       { type := "DOCUMENT_EXPIRED", time := .num 5000,
         meta := .obj (.cons "documentId" (.str "D1") .nil) }] :=
  ⟨rfl, by decide,
   emitted_triggers_ascend exampleDates Mission_Clocks.fresh [Op.init tiedBody 0 0]
     allResolve 5000 5000 5000 rfl (by decide),
   by decide⟩

/-! ## Cancellation -/

/-- C15. From every prior instance, `cancelAll` leaves storage with no
missionId, no trigger collection and no other key, which is the storage of a
never-initialized instance, and answers with status `cancelled`. -/
theorem cancelAll_clears_storage (self : Mission_Clocks) :
    (cancelAll self).1.storage.missionId = none ∧
    (cancelAll self).1.storage.triggers = none ∧
    (cancelAll self).1.storage.others = [] ∧
    (cancelAll self).1.storage = Mission_Clocks.fresh.storage ∧
    (cancelAll self).2 = cancelledResponse :=
  ⟨rfl, rfl, rfl, rfl, rfl⟩

/-! ## Initialize overwrites -/

/-- C16. Initialize overwrites, never merges: for every two prior instances
and every request with a non-empty missionId, the missionId and the trigger
collection persisted by initialize are the same, whatever the clock readings;
they are the request's missionId and the sorted list built from the request,
so no prior trigger survives; and initializing twice in a row with the same
request persists the same missionId and collection as initializing once. -/
theorem init_overwrites_prior_state (dateParse : String → Option Int)
    (self₁ self₂ : Mission_Clocks) (body : InitBody) (now₁ now₂ now₃ now₄ : Int)
    (hm : truthy body.missionId = true) :
    (init dateParse self₁ body now₁ now₂).1.storage.missionId =
      (init dateParse self₂ body now₃ now₄).1.storage.missionId ∧
    (init dateParse self₁ body now₁ now₂).1.storage.triggers =
      (init dateParse self₂ body now₃ now₄).1.storage.triggers ∧
    (init dateParse self₁ body now₁ now₂).1.storage.missionId = some body.missionId ∧
    (init dateParse self₁ body now₁ now₂).1.storage.triggers =
      some (sortTriggers dateParse (buildTriggers body)) ∧
    (init dateParse (init dateParse self₁ body now₁ now₂).1 body now₃ now₄).1.storage.missionId =
      (init dateParse self₁ body now₁ now₂).1.storage.missionId ∧
    (init dateParse (init dateParse self₁ body now₁ now₂).1 body now₃ now₄).1.storage.triggers =
      (init dateParse self₁ body now₁ now₂).1.storage.triggers := by
  have hid : ∀ (s : Mission_Clocks) (n m : Int),
      (init dateParse s body n m).1.storage.missionId = some body.missionId :=
    fun s n m => (init_accepted dateParse s body n m hm).2.1
  have htr : ∀ (s : Mission_Clocks) (n m : Int),
      (init dateParse s body n m).1.storage.triggers =
        some (sortTriggers dateParse (buildTriggers body)) := by
    intro s n m
    rw [init_self dateParse s body n m hm]
    show (scheduleNextAlarm dateParse _ n m).storage.triggers = _
    rw [scheduleNextAlarm_storage]
    rfl
  refine ⟨?_, ?_, hid _ _ _, htr _ _ _, ?_, ?_⟩
  · rw [hid, hid]
  · rw [htr, htr]
  · rw [hid, hid]
  · rw [htr, htr]

/-- C16 on the instance left by the example run, which holds a document
trigger: initializing it with the example request persists the same
collection as initializing a fresh instance, without the document trigger. -/
theorem init_overwrites_prior_state_witness :
    truthy exampleBody.missionId = true ∧
    (init exampleDates (run exampleDates Mission_Clocks.fresh exampleOps)
      exampleBody 9000 9000).1.storage.triggers =
      (init exampleDates Mission_Clocks.fresh exampleBody 0 0).1.storage.triggers ∧
    (init exampleDates Mission_Clocks.fresh exampleBody 0 0).1.storage.triggers =
      some [{ type := "T48_LOCK", time := .num 5000, meta := .undefined },
        { type := "SLA_BREACH", time := .num 7000, meta := .str "gold" },
        { type := "T72_LOCK", time := .str "1970-01-01T00:00:10.000Z", meta := .undefined }] :=
  ⟨by decide,
   (init_overwrites_prior_state exampleDates (run exampleDates Mission_Clocks.fresh exampleOps)
      Mission_Clocks.fresh exampleBody 9000 9000 0 0 (by decide)).2.1,
   by decide⟩

/-! ## The messages sent -/

/-- C17. For the `i`-th trigger the alarm handler emits, the missionId
passed on is the persisted one; the fetches attempted are the primary message
`{ missionId, eventType: type, meta }`, followed, unless the primary send
rejected, by the secondary message `{ missionId, notificationType: type }`;
`meta` is the trigger's meta unmodified when that is a mapping (or any truthy
value) and the empty mapping when the trigger has no meta (or a falsy one);
for a trigger created by registerDocument it is `{ documentId }`. -/
theorem emitted_messages_carry_mission_type_and_meta (dateParse : String → Option Int)
    (self : Mission_Clocks) (outcomes : Nat → Sink → FetchOutcome) (now now₁ now₂ : Int)
    (i : Nat) (c : EmitCall)
    (hc : (alarm dateParse self outcomes now now₁ now₂).emits[i]? = some c) :
    c.missionId = storedMissionId self ∧
    ∃ meta : JsVal,
      (c.result.calls = [primaryMessage (storedMissionId self) c.trigger meta] ∨
       c.result.calls = [primaryMessage (storedMissionId self) c.trigger meta,
                         secondaryMessage (storedMissionId self) c.trigger]) ∧
      (∀ fields, c.trigger.meta = .obj fields → meta = .obj fields) ∧
      (truthy c.trigger.meta = true → meta = c.trigger.meta) ∧
      (c.trigger.meta = .undefined → meta = .obj .nil) ∧
      (truthy c.trigger.meta = false → meta = .obj .nil) ∧
      (∀ body : RegisterBody, c.trigger = documentTrigger body →
        meta = .obj (.cons "documentId" body.documentId .nil)) := by
  rw [alarm_emits] at hc
  obtain ⟨hmid, hres⟩ := emitLoop_getElem _ outcomes _ 0 i c hc
  rw [Nat.zero_add] at hres
  refine ⟨hmid, if truthy c.trigger.meta then c.trigger.meta else .obj .nil, ?_, ?_, ?_, ?_, ?_, ?_⟩
  · rw [hres, emitTrigger_calls]
    cases outcomes i .missionControlApi with
    | rejected e => exact Or.inl rfl
    | resolved s => exact Or.inr rfl
  · intro fields hf
    rw [hf]
    rfl
  · intro ht
    rw [if_pos ht]
  · intro hu
    rw [hu]
    rfl
  · intro hf
    rw [hf]
    rfl
  · intro body hb
    rw [hb]
    rfl

/-- C17 at the wakeup at 5000 ms of the example run: the first trigger
emitted is the document registered as `D1`, whose primary message carries the
meta `{ documentId: "D1" }`, followed by its secondary message. -/
theorem emitted_messages_carry_mission_type_and_meta_witness :
    (alarm exampleDates (run exampleDates Mission_Clocks.fresh (exampleOps.take 2))
      allResolve 5000 5000 5000).emits[0]? =
      some { missionId := .str "M1",
             trigger := documentTrigger { documentId := .str "D1", expiry := .num 2000 },
             result :=
              { calls :=
                  [{ sink := .missionControlApi,
                     body := .event (.str "M1") "DOCUMENT_EXPIRED"
                      (.obj (.cons "documentId" (.str "D1") .nil)) },
                   { sink := .missionComms,
                     body := .notification (.str "M1") "DOCUMENT_EXPIRED" }],
                logged := [], raised := none } } ∧
    storedMissionId (run exampleDates Mission_Clocks.fresh (exampleOps.take 2)) = .str "M1" :=
  have h := emitted_messages_carry_mission_type_and_meta exampleDates
    (run exampleDates Mission_Clocks.fresh (exampleOps.take 2)) allResolve 5000 5000 5000 0
    { missionId := .str "M1",
      trigger := documentTrigger { documentId := .str "D1", expiry := .num 2000 },
      result :=
        { calls :=
            [{ sink := .missionControlApi,
               body := .event (.str "M1") "DOCUMENT_EXPIRED"
                (.obj (.cons "documentId" (.str "D1") .nil)) },
             { sink := .missionComms,
               body := .notification (.str "M1") "DOCUMENT_EXPIRED" }],
          logged := [], raised := none } }
    (by decide)
  ⟨by decide, h.1.symm⟩

/-! ## Storage failures during initialize -/

theorem initWithFault_none (D : String → Option Int) (self : Mission_Clocks) (body : InitBody)
    (now₁ now₂ : Int) :
    initWithFault D self body .none now₁ now₂ =
      ((init D self body now₁ now₂).1, .returned (init D self body now₁ now₂).2) := by
  unfold initWithFault init
  cases truthy body.missionId <;> simp

/-- C18, as amended. When a storage write fails during initialize, the method
ends with the exception: it returns no response and arms no wakeup, and the
persisted trigger collection is what it was before the call. When the
missionId write is the one that fails, the persisted missionId is unchanged
too; when the trigger-collection write fails, the missionId write has already
happened, so the new missionId is stored together with the old collection. -/
theorem init_write_failure_arms_nothing (dateParse : String → Option Int)
    (self : Mission_Clocks) (body : InitBody) (fault : PutFault) (now₁ now₂ : Int)
    (hm : truthy body.missionId = true) (hfault : fault ≠ .none) :
    (∃ err, (initWithFault dateParse self body fault now₁ now₂).2 = .threw err) ∧
    (initWithFault dateParse self body fault now₁ now₂).1.armed = self.armed ∧
    (initWithFault dateParse self body fault now₁ now₂).1.storage.triggers =
      self.storage.triggers ∧
    (fault = .missionId →
      (initWithFault dateParse self body fault now₁ now₂).1 = self) ∧
    (fault = .triggers →
      (initWithFault dateParse self body fault now₁ now₂).1.storage.missionId =
        some body.missionId) := by
  cases fault with
  | none => exact absurd rfl hfault
  | missionId => simp [initWithFault, hm]
  | triggers => simp [initWithFault, hm, putMissionId]

/-- C18, as amended, on the instance of Scenario A when the missionId write of
a second initialize fails: nothing changes. -/
theorem init_write_failure_arms_nothing_witness :
    truthy otherBody.missionId = true ∧
    PutFault.missionId ≠ PutFault.none ∧
    (initWithFault exampleDates (init exampleDates Mission_Clocks.fresh exampleBody 0 0).1
      otherBody .missionId 1000 1000).1 =
      (init exampleDates Mission_Clocks.fresh exampleBody 0 0).1 :=
  ⟨by decide, by decide,
   (init_write_failure_arms_nothing exampleDates
      (init exampleDates Mission_Clocks.fresh exampleBody 0 0).1 otherBody .missionId 1000 1000
      (by decide) (by decide)).2.2.2.1 rfl⟩

/-- C18 fails as stated. On the instance of Scenario A, which stores mission
`M1` and its three triggers, an initialize for mission `M2` whose
trigger-collection write fails ends with the exception and leaves the new
missionId `M2` stored together with the three triggers of `M1`. -/
theorem init_write_failure_leaves_new_missionId_with_old_triggers :
    (init exampleDates Mission_Clocks.fresh exampleBody 0 0).1.storage.missionId =
      some (.str "M1") ∧
    initWithFault exampleDates (init exampleDates Mission_Clocks.fresh exampleBody 0 0).1
      otherBody .triggers 1000 1000 =
      ({ storage :=
          { missionId := some (.str "M2"),
            triggers := some
              [{ type := "T48_LOCK", time := .num 5000, meta := .undefined },
               { type := "SLA_BREACH", time := .num 7000, meta := .str "gold" },
               { type := "T72_LOCK", time := .str "1970-01-01T00:00:10.000Z",
                 meta := .undefined }],
            others := [] },
         armed := some 5000,
         initialized := true },
       .threw "put triggers failed") := by
  decide

/-! ## Stored triggers whose time does not parse -/

/-- C19. A trigger whose time does not parse, stored or not, is never handed to
`emitTrigger` by the alarm handler, whatever the instant `now`; and in every
alarm invocation in which some stored trigger is due, it is absent from the
collection the handler persists: it is removed without having been emitted. -/
theorem unparseable_trigger_is_dropped_unemitted (dateParse : String → Option Int)
    (self : Mission_Clocks) (outcomes : Nat → Sink → FetchOutcome) (now now₁ now₂ : Int)
    (t : Trigger) (hnan : getTime dateParse t.time = none) :
    t ∉ (alarm dateParse self outcomes now now₁ now₂).emits.map EmitCall.trigger ∧
    ((∃ u ∈ storedTriggers self, isDue dateParse now u = true) →
      t ∉ storedTriggers (alarm dateParse self outcomes now now₁ now₂).self ∧
      (alarm dateParse self outcomes now now₁ now₂).self.storage.triggers =
        some ((storedTriggers self).filter (isPending dateParse now))) := by
  have hdue : isDue dateParse now t = false := by
    unfold isDue
    rw [hnan]
  have hpend : isPending dateParse now t = false := by
    unfold isPending
    rw [hnan]
  constructor
  · rw [alarm_emits, emitLoop_triggers]
    intro hmem
    have := (List.mem_filter.mp hmem).2
    rw [hdue] at this
    exact Bool.false_ne_true this
  · intro ⟨u, hu, hudue⟩
    have hne : ¬ (storedTriggers self).filter (isDue dateParse now) = [] := by
      intro h0
      have := List.filter_eq_nil_iff.mp h0 u hu
      exact this hudue
    have hs : ¬ storedTriggers self = [] := by
      intro h0
      rw [h0] at hu
      exact absurd hu (List.not_mem_nil u)
    constructor
    · rw [alarm_storedTriggers, if_neg hne]
      intro hmem
      have := (List.mem_filter.mp hmem).2
      rw [hpend] at this
      exact Bool.false_ne_true this
    · rw [alarm_self, if_neg hs, if_neg hne, scheduleNextAlarm_storage]
      rfl

/-- C19 on the collection with an undated T72 lock and a T48 lock at 5000 ms:
the wakeup at 6000 ms emits the T48 lock only and persists the empty list. -/
theorem unparseable_trigger_is_dropped_unemitted_witness :
    ({ type := "T72_LOCK", time := .str "to be confirmed", meta := .undefined } : Trigger) ∈
      storedTriggers undatedMission ∧
    (alarm exampleDates undatedMission allResolve 6000 6000 6000).emits.map EmitCall.trigger =
      [{ type := "T48_LOCK", time := .num 5000, meta := .undefined }] ∧
    (alarm exampleDates undatedMission allResolve 6000 6000 6000).self.storage.triggers =
      some [] :=
  have h := unparseable_trigger_is_dropped_unemitted exampleDates undatedMission allResolve
    6000 6000 6000 { type := "T72_LOCK", time := .str "to be confirmed", meta := .undefined }
    (by decide)
  ⟨by decide, by decide,
   (h.2 ⟨{ type := "T48_LOCK", time := .num 5000, meta := .undefined },
      by decide, by decide⟩).2.trans (by decide)⟩

end MissionClocks
